import Mathlib

/-!
Verification of the WhatsApp expense-bot dialog engine (`main.py`).

The Python source is embedded shallowly: regex-based extractors become
recursive scanners over `List Char`, the Postgres-backed stores become
fields of an explicit `World` record, and the webhook handler `incoming`
becomes a pure step function `World → World × outbound messages`.
Monetary amounts are modelled as exact centavo counts (`ℕ`): the amount
regex admits at most two decimals, so this embedding of the parsed float
is lossless.  Timestamps are UTC seconds (`Int`), and the bot's fixed
timezone (America/Argentina/Buenos
Aires, UTC-03 for all modern dates) as the constant offset 10800 s.
Each outbound text produced by `enviar_whatsapp` is represented by one
constructor of `OutMsg` carrying the interpolated data.  The source file
stores its string literals with an extra escaping layer (`\"""`, `\\b`);
definitions here model the unescaped program those literals denote.
-/

/-! ### Character and string utilities (Python `str` methods, ASCII range) -/

def esEspacio (c : Char) : Bool := c.isWhitespace

def esLetraPalabra (c : Char) : Bool := c.isAlphanum || c = '_'

def valorDigito (c : Char) : Nat := c.toNat - '0'.toNat

/-- Python `str.lower()` (ASCII letters). -/
def pyLower (s : String) : String := ⟨s.data.map Char.toLower⟩

/-- Python `str.upper()` (ASCII letters). -/
def pyUpper (s : String) : String := ⟨s.data.map Char.toUpper⟩

def recortaIzq (cs : List Char) : List Char := cs.dropWhile esEspacio

/-- Python `str.strip()`. -/
def pyStrip (s : String) : String := ⟨(recortaIzq ((recortaIzq s.data.reverse)).reverse)⟩

/-- Python `str.capitalize()` (first char upper, rest lower). -/
def pyCapitalize (s : String) : String :=
  match s.data with
  | [] => ""
  | c :: r => ⟨c.toUpper :: r.map Char.toLower⟩

/-- Python `str.isdigit()` restricted to ASCII digits. -/
def pyIsDigit (s : String) : Bool := !s.data.isEmpty && s.data.all Char.isDigit

def natDeDigitos (cs : List Char) : Nat := cs.foldl (fun a c => a * 10 + valorDigito c) 0

/-- Python `int(s)` for a digit string. -/
def pyInt (s : String) : Nat := natDeDigitos s.data

def prefijoRestante : List Char → List Char → Option (List Char)
  | [], cs => some cs
  | _ :: _, [] => none
  | p :: ps, c :: cs => if p = c then prefijoRestante ps cs else none

/-- Python `s.startswith(p)`. -/
def empiezaCon (p s : String) : Bool := (prefijoRestante p.data s.data).isSome

def contieneAux (agu : List Char) : List Char → Bool
  | [] => agu.isEmpty
  | c :: r => (prefijoRestante agu (c :: r)).isSome || contieneAux agu r

/-- Python `sub in s` (substring containment). -/
def contiene (s sub : String) : Bool := contieneAux sub.data s.data

/-- Case-insensitive prefix match: `pat` is given lowercase. -/
def prefijoSinCaso : List Char → List Char → Option (List Char)
  | [], cs => some cs
  | _ :: _, [] => none
  | p :: ps, c :: cs => if p = c.toLower then prefijoSinCaso ps cs else none

/-- `\b` after a match: end of input or a non-word character. -/
def bordeDespues : List Char → Bool
  | [] => true
  | c :: _ => !esLetraPalabra c

/-! ### Input normalizer (`parse_*`, `normalizar_*`, `medio_pago_valido`) -/

structure Fecha where
  y : Nat
  m : Nat
  d : Nat
deriving DecidableEq, Repr

def esBisiesto (y : Nat) : Bool := (y % 4 = 0 && y % 100 ≠ 0) || y % 400 = 0

def diasDelMes (y m : Nat) : Nat :=
  if m = 2 then (if esBisiesto y then 29 else 28)
  else if m = 4 ∨ m = 6 ∨ m = 9 ∨ m = 11 then 30
  else 31

/-- Calendar validity as enforced by `datetime.date(y, m, d)`. -/
def fechaValida (y m d : Nat) : Bool :=
  1 ≤ y && 1 ≤ m && m ≤ 12 && 1 ≤ d && d ≤ diasDelMes y m

/-- The regex `(\d{4})-(\d{2})-(\d{2})` tried at the head of the input. -/
def tokenFechaEn : List Char → Option (Nat × Nat × Nat)
  | a :: b :: c :: d :: '-' :: e :: f :: '-' :: g :: h :: _ =>
    if a.isDigit && b.isDigit && c.isDigit && d.isDigit &&
       e.isDigit && f.isDigit && g.isDigit && h.isDigit then
      some (natDeDigitos [a, b, c, d], natDeDigitos [e, f], natDeDigitos [g, h])
    else none
  | _ => none

def buscaTokenFecha : List Char → Option (Nat × Nat × Nat)
  | [] => none
  | c :: r =>
    match tokenFechaEn (c :: r) with
    | some t => some t
    | none => buscaTokenFecha r

/-- `parse_fecha`: leftmost `YYYY-MM-DD` shaped token; `None` when the
    token fails calendar validity (the `except` branch). -/
def parse_fecha (s : String) : Option Fecha :=
  match buscaTokenFecha s.data with
  | none => none
  | some (y, m, d) => if fechaValida y m d then some ⟨y, m, d⟩ else none

/-- Alternative `[01]?\d` with both digits, then `:[0-5]\d\b`. -/
def horaAltDos : List Char → Option (Nat × Nat)
  | a :: b :: ':' :: c :: d :: r =>
    if (a = '0' ∨ a = '1') && b.isDigit && ('0' ≤ c && c ≤ '5') && d.isDigit && bordeDespues r
    then some (valorDigito a * 10 + valorDigito b, valorDigito c * 10 + valorDigito d)
    else none
  | _ => none

/-- Alternative `[01]?\d` with the optional digit absent. -/
def horaAltUno : List Char → Option (Nat × Nat)
  | a :: ':' :: c :: d :: r =>
    if a.isDigit && ('0' ≤ c && c ≤ '5') && d.isDigit && bordeDespues r
    then some (valorDigito a, valorDigito c * 10 + valorDigito d)
    else none
  | _ => none

/-- Alternative `2[0-3]`, then `:[0-5]\d\b`. -/
def horaAltVeinte : List Char → Option (Nat × Nat)
  | '2' :: b :: ':' :: c :: d :: r =>
    if ('0' ≤ b && b ≤ '3') && ('0' ≤ c && c ≤ '5') && d.isDigit && bordeDespues r
    then some (20 + valorDigito b, valorDigito c * 10 + valorDigito d)
    else none
  | _ => none

def horaEn (cs : List Char) : Option (Nat × Nat) :=
  (horaAltDos cs).orElse fun _ => (horaAltUno cs).orElse fun _ => horaAltVeinte cs

def buscaHora (prevPalabra : Bool) : List Char → Option (Nat × Nat)
  | [] => none
  | c :: r =>
    match (if prevPalabra then none else horaEn (c :: r)) with
    | some t => some t
    | none => buscaHora (esLetraPalabra c) r

/-- `parse_hora`: leftmost `\b([01]?\d|2[0-3]):([0-5]\d)\b`. -/
def parse_hora (s : String) : Option (Nat × Nat) := buscaHora false s.data

/-- The greedy `\d+` split (`span isDigit`). -/
def tomaDigitos (cs : List Char) : List Char × List Char :=
  (cs.takeWhile Char.isDigit, cs.dropWhile Char.isDigit)

/-- Value of `<ent>.<frac>` in centavos; `frac` has at most two digits. -/
def centavosDeDigitos (ent frac : List Char) : Nat :=
  natDeDigitos ent * 100 + natDeDigitos frac * 10 ^ (2 - frac.length)

/-- The optional alternation `(ars|usd|eur|brl)?` (case-insensitive),
    already uppercased as by `m.group(2).upper()`. -/
def monedaEn (cs : List Char) : Option String :=
  if (prefijoSinCaso "ars".data cs).isSome then some "ARS"
  else if (prefijoSinCaso "usd".data cs).isSome then some "USD"
  else if (prefijoSinCaso "eur".data cs).isSome then some "EUR"
  else if (prefijoSinCaso "brl".data cs).isSome then some "BRL"
  else none

/-- Body of `parse_monto_moneda` once the leftmost digit is found:
    `(\d+(?:[.,]\d{1,2})?)\s*(ars|usd|eur|brl)?`. -/
def montoEn (cs : List Char) : Nat × String :=
  let p := tomaDigitos cs
  let q :=
    match p.2 with
    | s :: r =>
      if s = '.' ∨ s = ',' then
        let f := tomaDigitos r
        if f.1.isEmpty then (([] : List Char), p.2)
        else (f.1.take 2, (f.1.drop 2) ++ f.2)
      else (([] : List Char), p.2)
    | [] => (([] : List Char), p.2)
  let resto := recortaIzq q.2
  (centavosDeDigitos p.1 q.1, (monedaEn resto).getD "ARS")

def buscaMonto : List Char → Option (Nat × String)
  | [] => none
  | c :: r => if c.isDigit then some (montoEn (c :: r)) else buscaMonto r

/-- `parse_monto_moneda`: `(None, None)` becomes `none`; the matched
    amount is modelled exactly, in centavos. -/
def parse_monto_moneda (s : String) : Option (Nat × String) := buscaMonto s.data

def normalizar_si_no (txt : String) : Option String :=
  let t := pyLower (pyStrip txt)
  if t ∈ ["si", "sí", "s", "ok", "dale", "claro", "afirmativo", "yes", "y"] then some "si"
  else if t ∈ ["no", "n", "nope"] then some "no"
  else none

def normalizar_ahora_otro (txt : String) : Option String :=
  let t := pyLower (pyStrip txt)
  if contiene t "ahora" then some "ahora"
  else if contiene t "otro" || contiene t "antes" then some "otro"
  else none

def mediosValidos : List String := ["efectivo", "debito", "credito", "transferencia"]

def medio_pago_valido (txt : String) : Option String :=
  let t := pyLower (pyStrip txt)
  if t ∈ mediosValidos then some t else none

/-- `session_expirada`: strictly more than `TIMEOUT_MIN = 2` minutes,
    in seconds. -/
def session_expirada (ahora actualizado : Int) : Prop := 120 < ahora - actualizado

instance : ∀ a b : Int, Decidable (session_expirada a b) := fun a b =>
  inferInstanceAs (Decidable (120 < a - b))

/-! ### Calendar arithmetic (`pytz` localization at the fixed UTC-03 zone) -/

/-- Days since 1970-01-01 of a civil date (standard Gregorian formula). -/
def fechaADias (f : Fecha) : Int :=
  let y := if f.m ≤ 2 then f.y - 1 else f.y
  let era := y / 400
  let yoe := y % 400
  let mp := if f.m ≤ 2 then f.m + 9 else f.m - 3
  let doy := (153 * mp + 2) / 5 + (f.d - 1)
  let doe := yoe * 365 + yoe / 4 - yoe / 100 + doy
  (era * 146097 + doe : Int) - 719468

/-- UTC instant (seconds) of local midnight of `f`:
    `tz.localize(datetime.combine(f, time(0,0))).astimezone(utc)`. -/
def utcMedianoche (f : Fecha) : Int := fechaADias f * 86400 + 10800

/-- UTC instant of local `hh:mm` on day `f`. -/
def utcDeLocal (f : Fecha) (hh mm : Nat) : Int :=
  fechaADias f * 86400 + (hh * 3600 + mm * 60 : Nat) + 10800

example : fechaADias ⟨1970, 1, 1⟩ = 0 := by decide
example : parse_fecha "hoy 2025-08-01 ok" = some ⟨2025, 8, 1⟩ := by decide
example : parse_fecha "2025-02-30" = none := by decide
example : parse_hora "a las 23:59" = some (23, 59) := by decide
example : parse_hora "123:45" = none := by decide
example : parse_monto_moneda "pagué 4500,50 usd" = some (450050, "USD") := by decide
example : parse_monto_moneda "0" = some (0, "ARS") := by decide
example : parse_monto_moneda "sin numeros" = none := by decide

/-! ### Data model: dialog data, expense records, sessions, the world -/

/-- The JSON dialog dictionary `datos`.  Each Python key is a field;
    `none` stands for both an absent key and an explicit `null` (no code
    path distinguishes them).  `desde`/`hasta`/`fecha_parcial` are stored
    as ISO strings in the source and round-trip losslessly through
    `isoformat`/`fromisoformat`, so they are kept structured here. -/
structure Datos where
  desde : Option Fecha := none
  hasta : Option Fecha := none
  medio : Option String := none
  banco : Option String := none
  ops_banco : List String := []
  pendiente_banco : Option String := none
  fecha_hora_utc : Option Int := none
  fecha_parcial : Option Fecha := none
  monto : Option Nat := none
  moneda : Option String := none
  descripcion : Option String := none
  medio_pago : Option String := none
  marca_tarjeta : Option String := none
  ops_marca : List String := []
  pendiente_marca : Option String := none
  cuenta_pago : Option String := none
  categoria : Option String := none
  comercio : Option String := none
  texto_original : Option String := none
  whatsapp_origen : Option String := none
deriving DecidableEq, Repr

def datosVacios : Datos := {}

/-- A row of the `gastos` table. -/
structure Gasto where
  fecha_hora_utc : Int
  monto : Nat
  moneda : String
  descripcion : Option String
  categoria : Option String
  comercio : Option String
  medio_pago : Option String
  banco : Option String
  marca_tarjeta : Option String
  cuenta_pago : Option String
  texto_original : Option String
  whatsapp_origen : Option String
  clave : Nat
deriving DecidableEq, Repr

/-- A row of the `conversaciones` table. -/
structure Sesion where
  estado : String
  datos : Datos
  actualizado_en : Int
deriving DecidableEq, Repr

/-- The durable store plus writer availability.  Catalog lists are kept
    newest-first, mirroring `order by id desc`.  `escritorOk = false`
    models the downstream store being unavailable for `insert into
    gastos` (the call raises). -/
structure World where
  processed : List String
  sessions : List (String × Sesion)
  gastos : List Gasto
  bancos : List (String × String)
  marcas : List (String × String)
  categorias : List (String × String)
  escritorOk : Bool
deriving DecidableEq, Repr

/-- Information content of the result string of the two query builders:
    the "no matches" sentinel, or header data (count, total, currency of
    the first row) plus the listed rows and the "showing 20 of 200"
    trailer flag. -/
inductive QueryRes where
  | noMatches : QueryRes
  | resumen (cuenta : Nat) (total : Nat) (moneda : String)
      (listado : List Gasto) (truncado : Bool) : QueryRes
deriving DecidableEq, Repr

/-- One constructor per distinct outbound text passed to
    `enviar_whatsapp`, carrying the interpolated data. -/
inductive OutMsg where
  | timeoutNote
  | canceladoNote
  | consultaLibre (r : QueryRes)
  | menuPrompt
  | confirmaRegistroPrompt
  | consultaDesdePrompt
  | noEntendiMenu
  | fechaInvalidaEj1
  | consultaHastaPrompt
  | fechaInvalidaEj31
  | consultaMedioPrompt
  | bancoMenuConsulta (ops : List String)
  | elegiMedio
  | escribiNombreBanco
  | numeroNoValido
  | noExisteCrear (valor : String)
  | confirmaBusqueda (desde hasta : Fecha) (medio banco : String)
  | crearBancoPrompt (valor : String)
  | respondeSiNo
  | consultaGuiada (r : QueryRes)
  | consultaCancelada
  | respondeSiNoStars
  | ahoraOtroPrompt
  | gracias
  | ahoraOtroReprompt
  | pideFechaPrompt
  | pideMontoPrompt
  | fechaInvalidaAAAA
  | pideHoraPrompt
  | horaInvalida
  | montoIlegible
  | pideDescripcionPrompt
  | pideMedioPagoPrompt
  | elegiMedioPago
  | bancoMenuNinguno (ops : List String)
  | escribiMarca
  | marcaMenu (ops : List String)
  | crearMarcaPrompt (valor : String)
  | pideCuentaPrompt
  | pideCuentaPrompt2
  | gastoRegistrado (clave : Nat)
  | fallbackAyuda
deriving DecidableEq, Repr

/-- Result of one webhook delivery: the world after all committed
    effects, the messages sent, and whether an unhandled exception
    escaped (`crashed`: the handler returned HTTP 500 mid-way). -/
structure StepRes where
  world : World
  out : List OutMsg
  crashed : Bool
deriving DecidableEq, Repr

/-! ### Session store and catalog gateway -/

def buscaSesion (wa : String) : List (String × Sesion) → Option Sesion
  | [] => none
  | p :: r => if p.1 = wa then some p.2 else buscaSesion wa r

/-- `get_conv`. -/
def get_conv (wa : String) (w : World) : Option Sesion := buscaSesion wa w.sessions

def ponAsoc (wa : String) (s : Sesion) : List (String × Sesion) → List (String × Sesion)
  | [] => [(wa, s)]
  | p :: r => if p.1 = wa then (wa, s) :: r else p :: ponAsoc wa s r

/-- `set_conv`: atomic upsert refreshing `actualizado_en`. -/
def set_conv (wa estado : String) (datos : Datos) (ahora : Int) (w : World) : World :=
  { w with sessions := ponAsoc wa ⟨estado, datos, ahora⟩ w.sessions }

/-- `clear_conv`. -/
def clear_conv (wa : String) (w : World) : World :=
  { w with sessions := w.sessions.filter (fun p => !(p.1 = wa : Bool)) }

def tablaDe (campo : String) (w : World) : List (String × String) :=
  if campo = "banco" then w.bancos
  else if campo = "marca" then w.marcas
  else w.categorias

/-- `listar_opciones`: newest-first, page size `MAX_OPS = 5`. -/
def listar_opciones (campo wa : String) (w : World) : List String :=
  (((tablaDe campo w).filter (fun p => (p.1 = wa : Bool))).map (·.2)).take 5

/-- `existe_opcion`: case-insensitive name lookup. -/
def existe_opcion (campo wa valor : String) : World → Bool := fun w =>
  (tablaDe campo w).any (fun p => (p.1 = wa : Bool) && (pyLower p.2 = pyLower valor : Bool))

def agregaOpcion (wa valor : String) (t : List (String × String)) : List (String × String) :=
  if t.any (fun p => (p.1 = wa : Bool) && (p.2 = valor : Bool)) then t else (wa, valor) :: t

/-- `crear_opcion`: insert, `on conflict do nothing`. -/
def crear_opcion (campo wa valor : String) (w : World) : World :=
  if campo = "banco" then { w with bancos := agregaOpcion wa valor w.bancos }
  else if campo = "marca" then { w with marcas := agregaOpcion wa valor w.marcas }
  else { w with categorias := agregaOpcion wa valor w.categorias }

/-! ### Expense writer and query executors -/

/-- The record dictionary assembled at the `pide_cuenta` commit; `clave`
    models the `returning clave` value. -/
def armaRegistro (d : Datos) (clave : Nat) : Gasto :=
  { fecha_hora_utc := d.fecha_hora_utc.getD 0
    monto := d.monto.getD 0
    moneda := d.moneda.getD ""
    descripcion := d.descripcion
    categoria := d.categoria
    comercio := d.comercio
    medio_pago := d.medio_pago
    banco := d.banco
    marca_tarjeta := d.marca_tarjeta
    cuenta_pago := d.cuenta_pago
    texto_original := d.texto_original
    whatsapp_origen := d.whatsapp_origen
    clave := clave }

/-- `guardar_gasto`: single all-or-nothing insert; `none` models the
    store raising. -/
def guardar_gasto (w : World) (g : Gasto) : Option (Nat × World) :=
  if w.escritorOk then some (g.clave, { w with gastos := w.gastos ++ [g] }) else none

def insertaDesc (g : Gasto) : List Gasto → List Gasto
  | [] => [g]
  | h :: r => if h.fecha_hora_utc ≤ g.fecha_hora_utc then g :: h :: r else h :: insertaDesc g r

/-- `order by fecha_hora_utc desc`. -/
def ordenaDesc (l : List Gasto) : List Gasto := l.foldr insertaDesc []

/-- `ilike '%pat%'` on a nullable column (SQL `NULL` never matches). -/
def ilikeContiene (col : Option String) (pat : String) : Bool :=
  match col with
  | none => false
  | some s => contiene (pyLower s) (pyLower pat)

/-- Shared tail of both query builders: sentinel, or count / total /
    first-row currency / first 20 rows / "20 of 200" trailer. -/
def armaResumen (rows : List Gasto) : QueryRes :=
  match rows with
  | [] => .noMatches
  | r0 :: _ =>
    .resumen rows.length (rows.foldr (fun g a => g.monto + a) 0) r0.moneda
      (rows.take 20) (decide (rows.length > 20))

/-- The WHERE clause built by `ejecutar_consulta_guiada`: conditions are
    appended exactly when the source appends them to `condiciones`. -/
def filtroGuiado (wa_from : String) (filtros : Datos) (g : Gasto) : Bool :=
  (g.whatsapp_origen = some ("+" ++ wa_from) : Bool) &&
  (utcMedianoche (filtros.desde.getD ⟨1970, 1, 1⟩) ≤ g.fecha_hora_utc : Bool) &&
  (g.fecha_hora_utc < utcMedianoche (filtros.hasta.getD ⟨1970, 1, 1⟩) + 86400 : Bool) &&
  (match filtros.medio with
   | some m => if m ≠ "" ∧ m ≠ "todos" then (g.medio_pago = some m : Bool) else true
   | none => true) &&
  (match filtros.banco with
   | some b => if b ≠ "" then ilikeContiene g.banco b else true
   | none => true)

/-- `ejecutar_consulta_guiada` (`limit 200` after the descending sort). -/
def ejecutar_consulta_guiada (wa_from : String) (filtros : Datos) (gastos : List Gasto) :
    QueryRes :=
  armaResumen ((ordenaDesc (gastos.filter (filtroGuiado wa_from filtros))).take 200)

/-! ### The free-text query (`consultar_libre`) keyword extractors -/

/-- Last payment-method keyword with a `\b k \b` match (the source loop
    overwrites `medio` on every later hit). -/
def buscaPalabra (t : String) (k : String) : Bool :=
  (buscaPalabraAux k.data false t.data : Bool)
where
  buscaPalabraAux (agu : List Char) : Bool → List Char → Bool
    | _, [] => false
    | prevPalabra, c :: r =>
      (!prevPalabra &&
        (match prefijoSinCaso agu (c :: r) with
         | some resto => bordeDespues resto
         | none => false)) ||
      buscaPalabraAux agu (esLetraPalabra c) r

def medioLibre (t : String) : Option String :=
  ["credito", "debito", "efectivo", "transferencia"].foldl
    (fun acc k => if buscaPalabra t k then some k else acc) none

/-- `\bvisa|mastercard|amex|naranja|cabal\b`: the alternation binds the
    whole pattern, so only `visa` carries the leading boundary and only
    `cabal` the trailing one; the result is `group(0).capitalize()`,
    which is the same fixed word for every case variant. -/
def marcaLibreAux : Bool → List Char → Option String
  | _, [] => none
  | prevPalabra, c :: r =>
    if !prevPalabra && (prefijoSinCaso "visa".data (c :: r)).isSome then some "Visa"
    else if (prefijoSinCaso "mastercard".data (c :: r)).isSome then some "Mastercard"
    else if (prefijoSinCaso "amex".data (c :: r)).isSome then some "Amex"
    else if (prefijoSinCaso "naranja".data (c :: r)).isSome then some "Naranja"
    else if (match prefijoSinCaso "cabal".data (c :: r) with
             | some resto => bordeDespues resto
             | none => false) then some "Cabal"
    else marcaLibreAux (esLetraPalabra c) r

def marcaLibre (t : String) : Option String := marcaLibreAux false t.data

def bancosConocidos : List (String × String) :=
  [("nacion", "NACION"), ("bbva", "BBVA"), ("santander", "SANTANDER"),
   ("galicia", "GALICIA"), ("itau", "ITAU"), ("macro", "MACRO"),
   ("hsbc", "HSBC"), ("patagonia", "PATAGONIA"), ("credicoop", "CREDICOOP"),
   ("lemon", "LEMON"), ("mercado pago", "MERCADO PAGO")]

def bancoEnPos (cs : List Char) : List (String × String) → Option String
  | [] => none
  | (agu, res) :: r =>
    if (match prefijoSinCaso agu.data cs with
        | some resto => bordeDespues resto
        | none => false) then some res
    else bancoEnPos cs r

/-- `\b(nacion|…|mercado pago)\b` with `group(0).upper()`. -/
def bancoLibreAux : Bool → List Char → Option String
  | _, [] => none
  | prevPalabra, c :: r =>
    match (if prevPalabra then none else bancoEnPos (c :: r) bancosConocidos) with
    | some res => some res
    | none => bancoLibreAux (esLetraPalabra c) r

def bancoLibre (t : String) : Option String := bancoLibreAux false t.data

/-- `hasta\s+(\d{4}-\d{2}-\d{2})` (case-insensitive), leftmost. -/
def buscaHastaAux : List Char → Option (Nat × Nat × Nat)
  | [] => none
  | c :: r =>
    match (match prefijoSinCaso "hasta".data (c :: r) with
           | some resto =>
             let p := resto.span esEspacio
             if p.1.isEmpty then none else tokenFechaEn p.2
           | none => none) with
    | some t => some t
    | none => buscaHastaAux r

/-- The `f_hasta` extraction: the single regex match, then the guarded
    `dt.date` construction (`except: pass` leaves it `None`). -/
def hastaLibre (t : String) : Option Fecha :=
  match buscaHastaAux t.data with
  | none => none
  | some (y, m, d) => if fechaValida y m d then some ⟨y, m, d⟩ else none

/-- The WHERE clause built by `consultar_libre`. -/
def filtroLibre (wa_from : String) (medio marca banco : Option String)
    (f_desde f_hasta : Option Fecha) (g : Gasto) : Bool :=
  (g.whatsapp_origen = some ("+" ++ wa_from) : Bool) &&
  (match medio with
   | some k => (g.medio_pago = some k : Bool)
   | none => true) &&
  (match marca with
   | some mk => ilikeContiene g.marca_tarjeta mk
   | none => true) &&
  (match banco with
   | some bk => ilikeContiene g.banco bk
   | none => true) &&
  (match f_desde with
   | some f => (utcMedianoche f ≤ g.fecha_hora_utc : Bool)
   | none => true) &&
  (match f_hasta with
   | some f => (g.fecha_hora_utc < utcMedianoche f + 86400 : Bool)
   | none => true)

/-- `consultar_libre`. -/
def consultar_libre (wa_from filtro_txt : String) (gastos : List Gasto) : QueryRes :=
  armaResumen ((ordenaDesc (gastos.filter
    (filtroLibre wa_from (medioLibre filtro_txt) (marcaLibre filtro_txt)
      (bancoLibre filtro_txt) (parse_fecha filtro_txt) (hastaLibre filtro_txt)))).take 200)

example : medioLibre "pasame los gastos en efectivo y credito" = some "efectivo" := by decide
example : marcaLibre "tarjeta viSa nacion" = some "Visa" := by decide
example : bancoLibre "banco galicia" = some "GALICIA" := by decide
example : hastaLibre "desde 2025-08-01 hasta 2025-08-31" = some ⟨2025, 8, 31⟩ := by decide

/-! ### Dialog engine: one handler per `estado` branch of the router -/

def sinFallo (w : World) (ms : List OutMsg) : StepRes := ⟨w, ms, false⟩

/-- `estado == "menu"`. -/
def hMenu (wa : String) (t : String) (ahora : Int) (w : World) : StepRes :=
  if t ∈ ["1", "registrar", "registrar gasto", "gasto"] then
    sinFallo (set_conv wa "confirma_registro" datosVacios ahora w) [.confirmaRegistroPrompt]
  else if t ∈ ["2", "consultar", "consultar historial", "historial"] then
    sinFallo (set_conv wa "consulta_desde" datosVacios ahora w) [.consultaDesdePrompt]
  else sinFallo w [.noEntendiMenu]

def hConsultaDesde (wa : String) (d : Datos) (t : String) (ahora : Int) (w : World) : StepRes :=
  match parse_fecha t with
  | none => sinFallo w [.fechaInvalidaEj1]
  | some f => sinFallo (set_conv wa "consulta_hasta" { d with desde := some f } ahora w)
      [.consultaHastaPrompt]

def hConsultaHasta (wa : String) (d : Datos) (t : String) (ahora : Int) (w : World) : StepRes :=
  match parse_fecha t with
  | none => sinFallo w [.fechaInvalidaEj31]
  | some f => sinFallo (set_conv wa "consulta_medio" { d with hasta := some f } ahora w)
      [.consultaMedioPrompt]

def mapaMedio : List (String × String) :=
  [("1", "efectivo"), ("2", "debito"), ("3", "credito"), ("4", "transferencia"), ("0", "todos")]

def hConsultaMedio (wa : String) (d : Datos) (t : String) (ahora : Int) (w : World) : StepRes :=
  match mapaMedio.lookup t with
  | some v =>
    let ops := listar_opciones "banco" wa w
    sinFallo (set_conv wa "consulta_banco_menu" { d with medio := some v, ops_banco := ops } ahora w)
      [.bancoMenuConsulta ops]
  | none => sinFallo w [.elegiMedio]

/-- The shared fall-through of `consulta_banco_menu` / `consulta_banco_confirma`:
    move to `consulta_confirma` and render the summary (`datos["medio"] if
    datos["medio"]!="todos" else "todos"` is the identity; `datos["banco"] or
    "todos"` maps null and empty to `"todos"`). -/
def cierraConsulta (wa : String) (d : Datos) (ahora : Int) (w : World) : StepRes :=
  sinFallo (set_conv wa "consulta_confirma" d ahora w)
    [.confirmaBusqueda (d.desde.getD ⟨1970, 1, 1⟩) (d.hasta.getD ⟨1970, 1, 1⟩)
      (d.medio.getD "")
      (match d.banco with
       | some b => if b = "" then "todos" else b
       | none => "todos")]

def hConsultaBancoMenu (wa : String) (d : Datos) (t texto : String) (ahora : Int)
    (w : World) : StepRes :=
  let ops := d.ops_banco
  if pyIsDigit t then
    let n := pyInt t
    if n = 0 then cierraConsulta wa { d with banco := none } ahora w
    else if n = 9 then
      sinFallo (set_conv wa "consulta_banco_valor" d ahora w) [.escribiNombreBanco]
    else if 1 ≤ n ∧ n ≤ ops.length then
      cierraConsulta wa { d with banco := some (ops.getD (n - 1) "") } ahora w
    else sinFallo w [.numeroNoValido]
  else
    let valor := pyStrip texto
    if existe_opcion "banco" wa valor w then
      cierraConsulta wa { d with banco := some valor } ahora w
    else
      sinFallo (set_conv wa "consulta_banco_confirma" { d with pendiente_banco := some valor } ahora w)
        [.noExisteCrear valor]

def hConsultaBancoValor (wa : String) (d : Datos) (texto : String) (ahora : Int)
    (w : World) : StepRes :=
  let valor := pyStrip texto
  sinFallo (set_conv wa "consulta_banco_confirma" { d with pendiente_banco := some valor } ahora w)
    [.crearBancoPrompt valor]

def hConsultaBancoConfirma (wa : String) (d : Datos) (t : String) (ahora : Int)
    (w : World) : StepRes :=
  let resp := normalizar_si_no t
  if resp = some "si" then
    let w1 := crear_opcion "banco" wa (d.pendiente_banco.getD "") w
    cierraConsulta wa { d with banco := some (d.pendiente_banco.getD ""), pendiente_banco := none }
      ahora w1
  else if resp = some "no" then
    let ops := listar_opciones "banco" wa w
    sinFallo (set_conv wa "consulta_banco_menu" { d with ops_banco := ops } ahora w)
      [.bancoMenuConsulta ops]
  else sinFallo w [.respondeSiNo]

def hConsultaConfirma (wa from_id : String) (d : Datos) (t : String) (w : World) : StepRes :=
  let resp := normalizar_si_no t
  if resp = some "si" then
    sinFallo (clear_conv wa w) [.consultaGuiada (ejecutar_consulta_guiada from_id d w.gastos)]
  else if resp = some "no" then
    sinFallo (clear_conv wa w) [.consultaCancelada]
  else sinFallo w [.respondeSiNoStars]

def hConfirmaRegistro (wa : String) (t : String) (ahora : Int) (w : World) : StepRes :=
  let s := normalizar_si_no t
  if s = some "si" then
    sinFallo (set_conv wa "fecha_momento" datosVacios ahora w) [.ahoraOtroPrompt]
  else if s = some "no" then sinFallo (clear_conv wa w) [.gracias]
  else sinFallo w [.respondeSiNoStars]

def hFechaMomento (wa : String) (d : Datos) (t : String) (ahora : Int) (w : World) : StepRes :=
  let a := normalizar_ahora_otro t
  if a = some "ahora" then
    sinFallo (set_conv wa "pide_monto" { d with fecha_hora_utc := some ahora } ahora w)
      [.pideMontoPrompt]
  else if a = some "otro" then
    sinFallo (set_conv wa "pide_fecha" d ahora w) [.pideFechaPrompt]
  else sinFallo w [.ahoraOtroReprompt]

def hPideFecha (wa : String) (d : Datos) (t : String) (ahora : Int) (w : World) : StepRes :=
  match parse_fecha t with
  | none => sinFallo w [.fechaInvalidaAAAA]
  | some f => sinFallo (set_conv wa "pide_hora" { d with fecha_parcial := some f } ahora w)
      [.pideHoraPrompt]

def hPideHora (wa : String) (d : Datos) (t : String) (ahora : Int) (w : World) : StepRes :=
  match parse_hora t with
  | none => sinFallo w [.horaInvalida]
  | some (hh, mm) =>
    let ts := utcDeLocal (d.fecha_parcial.getD ⟨1970, 1, 1⟩) hh mm
    sinFallo (set_conv wa "pide_monto" { d with fecha_hora_utc := some ts, fecha_parcial := none }
        ahora w)
      [.pideMontoPrompt]

/-- `estado == "pide_monto"`: note `if not monto` also rejects a parsed
    amount of exactly zero (`0.0` is falsy). -/
def hPideMonto (wa : String) (d : Datos) (texto : String) (ahora : Int) (w : World) : StepRes :=
  match parse_monto_moneda texto with
  | none => sinFallo w [.montoIlegible]
  | some (monto, moneda) =>
    if monto = 0 then sinFallo w [.montoIlegible]
    else
      sinFallo (set_conv wa "pide_descripcion" { d with monto := some monto, moneda := some moneda }
          ahora w)
        [.pideDescripcionPrompt]

def hPideDescripcion (wa : String) (d : Datos) (texto : String) (ahora : Int)
    (w : World) : StepRes :=
  sinFallo (set_conv wa "pide_medio_pago" { d with descripcion := some (pyStrip texto) } ahora w)
    [.pideMedioPagoPrompt]

def hPideMedioPago (wa : String) (d : Datos) (t : String) (ahora : Int) (w : World) : StepRes :=
  match medio_pago_valido t with
  | none => sinFallo w [.elegiMedioPago]
  | some mp =>
    let ops := listar_opciones "banco" wa w
    sinFallo (set_conv wa "banco_menu" { d with medio_pago := some mp, ops_banco := ops } ahora w)
      [.bancoMenuNinguno ops]

/-- The shared fall-through of `banco_menu` / `banco_confirma_crear`:
    render the brand menu. -/
def vaMarcaMenu (wa : String) (d : Datos) (ahora : Int) (w : World) : StepRes :=
  let opsm := listar_opciones "marca" wa w
  sinFallo (set_conv wa "marca_menu" { d with ops_marca := opsm } ahora w) [.marcaMenu opsm]

def hBancoMenu (wa : String) (d : Datos) (t texto : String) (ahora : Int) (w : World) : StepRes :=
  let ops := d.ops_banco
  if pyIsDigit t then
    let n := pyInt t
    if n = 0 then vaMarcaMenu wa { d with banco := none } ahora w
    else if n = 9 then
      sinFallo (set_conv wa "banco_valor" d ahora w) [.escribiNombreBanco]
    else if 1 ≤ n ∧ n ≤ ops.length then
      vaMarcaMenu wa { d with banco := some (ops.getD (n - 1) "") } ahora w
    else sinFallo w [.numeroNoValido]
  else
    let valor := pyStrip texto
    if existe_opcion "banco" wa valor w then vaMarcaMenu wa { d with banco := some valor } ahora w
    else
      sinFallo (set_conv wa "banco_confirma_crear" { d with pendiente_banco := some valor } ahora w)
        [.noExisteCrear valor]

def hBancoValor (wa : String) (d : Datos) (texto : String) (ahora : Int) (w : World) : StepRes :=
  let valor := pyStrip texto
  sinFallo (set_conv wa "banco_confirma_crear" { d with pendiente_banco := some valor } ahora w)
    [.crearBancoPrompt valor]

def hBancoConfirmaCrear (wa : String) (d : Datos) (t : String) (ahora : Int)
    (w : World) : StepRes :=
  let resp := normalizar_si_no t
  if resp = some "si" then
    let w1 := crear_opcion "banco" wa (d.pendiente_banco.getD "") w
    vaMarcaMenu wa { d with banco := some (d.pendiente_banco.getD ""), pendiente_banco := none }
      ahora w1
  else if resp = some "no" then
    let ops := listar_opciones "banco" wa w
    sinFallo (set_conv wa "banco_menu" { d with ops_banco := ops } ahora w) [.bancoMenuNinguno ops]
  else sinFallo w [.respondeSiNo]

def hMarcaMenu (wa : String) (d : Datos) (t texto : String) (ahora : Int) (w : World) : StepRes :=
  let ops := d.ops_marca
  if pyIsDigit t then
    let n := pyInt t
    if n = 0 then
      sinFallo (set_conv wa "pide_cuenta" { d with marca_tarjeta := none } ahora w)
        [.pideCuentaPrompt]
    else if n = 9 then
      sinFallo (set_conv wa "marca_valor" d ahora w) [.escribiMarca]
    else if 1 ≤ n ∧ n ≤ ops.length then
      sinFallo (set_conv wa "pide_cuenta" { d with marca_tarjeta := some (ops.getD (n - 1) "") }
          ahora w)
        [.pideCuentaPrompt]
    else sinFallo w [.numeroNoValido]
  else
    let valor := pyStrip texto
    if existe_opcion "marca" wa valor w then
      sinFallo (set_conv wa "pide_cuenta" { d with marca_tarjeta := some valor } ahora w)
        [.pideCuentaPrompt]
    else
      sinFallo (set_conv wa "marca_confirma_crear" { d with pendiente_marca := some valor } ahora w)
        [.noExisteCrear valor]

def hMarcaValor (wa : String) (d : Datos) (texto : String) (ahora : Int) (w : World) : StepRes :=
  let valor := pyStrip texto
  sinFallo (set_conv wa "marca_confirma_crear" { d with pendiente_marca := some valor } ahora w)
    [.crearMarcaPrompt valor]

def hMarcaConfirmaCrear (wa : String) (d : Datos) (t : String) (ahora : Int)
    (w : World) : StepRes :=
  let resp := normalizar_si_no t
  if resp = some "si" then
    let w1 := crear_opcion "marca" wa (d.pendiente_marca.getD "") w
    sinFallo (set_conv wa "pide_cuenta"
        { d with marca_tarjeta := some (d.pendiente_marca.getD ""), pendiente_marca := none }
        ahora w1)
      [.pideCuentaPrompt2]
  else if resp = some "no" then
    let opsm := listar_opciones "marca" wa w
    sinFallo (set_conv wa "marca_menu" { d with ops_marca := opsm } ahora w) [.marcaMenu opsm]
  else sinFallo w [.respondeSiNo]

/-- `estado == "pide_cuenta"`: the terminal commit.  `setdefault` on
    `categoria`/`comercio` is the identity under the `Option` encoding.
    A writer failure propagates out of the handler uncommitted: nothing
    was sent and no session call was made before the insert. -/
def cometeGasto (wa : String) (w : World) (g : Gasto) : StepRes :=
  match guardar_gasto w g with
  | some (clave, w1) => sinFallo (clear_conv wa w1) [.gastoRegistrado clave]
  | none => ⟨w, [], true⟩

def hPideCuenta (wa : String) (d : Datos) (t texto : String) (ahora : Int)
    (w : World) : StepRes :=
  let d1 := { d with
    cuenta_pago := if t ∈ ["ninguno", "na", "n/a", "no"] then none else some (pyStrip texto),
    texto_original := some "registrado via dialogo",
    whatsapp_origen := some wa }
  let d2 := if d1.fecha_hora_utc.isNone then { d1 with fecha_hora_utc := some ahora } else d1
  cometeGasto wa w (armaRegistro d2 w.gastos.length)

/-- The `if estado == …` router chain (lines 313-602), written as a
    dispatch on the state name; the final arm is the fallback reply. -/
def routeState (wa from_id estado : String) (d : Datos) (t texto : String) (ahora : Int)
    (w : World) : StepRes :=
  match estado with
  | "menu" => hMenu wa t ahora w
  | "consulta_desde" => hConsultaDesde wa d t ahora w
  | "consulta_hasta" => hConsultaHasta wa d t ahora w
  | "consulta_medio" => hConsultaMedio wa d t ahora w
  | "consulta_banco_menu" => hConsultaBancoMenu wa d t texto ahora w
  | "consulta_banco_valor" => hConsultaBancoValor wa d texto ahora w
  | "consulta_banco_confirma" => hConsultaBancoConfirma wa d t ahora w
  | "consulta_confirma" => hConsultaConfirma wa from_id d t w
  | "confirma_registro" => hConfirmaRegistro wa t ahora w
  | "fecha_momento" => hFechaMomento wa d t ahora w
  | "pide_fecha" => hPideFecha wa d t ahora w
  | "pide_hora" => hPideHora wa d t ahora w
  | "pide_monto" => hPideMonto wa d texto ahora w
  | "pide_descripcion" => hPideDescripcion wa d texto ahora w
  | "pide_medio_pago" => hPideMedioPago wa d t ahora w
  | "banco_menu" => hBancoMenu wa d t texto ahora w
  | "banco_valor" => hBancoValor wa d texto ahora w
  | "banco_confirma_crear" => hBancoConfirmaCrear wa d t ahora w
  | "marca_menu" => hMarcaMenu wa d t texto ahora w
  | "marca_valor" => hMarcaValor wa d texto ahora w
  | "marca_confirma_crear" => hMarcaConfirmaCrear wa d t ahora w
  | "pide_cuenta" => hPideCuenta wa d t texto ahora w
  | _ => sinFallo w [.fallbackAyuda]

/-- An extracted inbound message: `None` fields model a missing `id`
    (`msg.get("id")`) or a missing `from` (`msg["from"]` raising inside
    the swallowed `try`). -/
structure Evento where
  mid : Option String
  remitente : Option String
  cuerpo : String
deriving DecidableEq, Repr

def atajoLibre (t : String) : Bool :=
  empiezaCon "pasame " t || contiene t "desde" || contiene t "hasta"

def saludos : List String := ["hola", "menu", "menú", "hi", "inicio", "buenas"]

/-- The global overrides and dispatch after dedup and the timeout check. -/
def despacha (wa from_id : String) (sess : Option Sesion) (t texto : String) (ahora : Int)
    (w : World) : StepRes :=
  if t ∈ ["cancelar", "salir", "stop"] then sinFallo (clear_conv wa w) [.canceladoNote]
  else if atajoLibre t then sinFallo w [.consultaLibre (consultar_libre from_id texto w.gastos)]
  else if t ∈ saludos then
    sinFallo (set_conv wa "menu" datosVacios ahora w) [.menuPrompt]
  else
    match sess with
    | none => sinFallo (set_conv wa "menu" datosVacios ahora w) [.menuPrompt]
    | some s => routeState wa from_id s.estado s.datos t texto ahora w

/-- One delivery of the `POST /webhook` handler, after envelope parsing.
    `visto_o_registrar` is split into its check (`mid ≠ "" ∧ mid` seen)
    and its registering insert, both before any conversation read. -/
def incoming (e : Evento) (ahora : Int) (w : World) : StepRes :=
  match e.remitente with
  | none => sinFallo w []
  | some from_id =>
    let mid := e.mid.getD ""
    let texto := pyStrip e.cuerpo
    if mid ≠ "" ∧ mid ∈ w.processed then sinFallo w []
    else
      let w1 := if mid = "" then w else { w with processed := mid :: w.processed }
      let wa := "+" ++ from_id
      let t := pyLower texto
      match get_conv wa w1 with
      | some s =>
        if s.estado ≠ "" ∧ session_expirada ahora s.actualizado_en then
          sinFallo (clear_conv wa w1) [.timeoutNote]
        else despacha wa from_id (some s) t texto ahora w1
      | none => despacha wa from_id none t texto ahora w1

/-! ### Structural lemmas about the stores -/

theorem mem_ponAsoc {wa : String} {s : Sesion} {p : String × Sesion} :
    ∀ {l : List (String × Sesion)}, p ∈ ponAsoc wa s l → p.2 = s ∨ p ∈ l := by
  intro l
  induction l with
  | nil => intro hp; simp [ponAsoc] at hp; subst hp; left; rfl
  | cons q r ih =>
    intro hp
    unfold ponAsoc at hp
    split at hp
    · rcases List.mem_cons.1 hp with h | h
      · left; rw [h]
      · right; exact List.mem_cons_of_mem _ h
    · rcases List.mem_cons.1 hp with h | h
      · right; rw [h]; exact List.mem_cons_self _ _
      · rcases ih h with h2 | h2
        · left; exact h2
        · right; exact List.mem_cons_of_mem _ h2

theorem buscaSesion_mem {wa : String} {s : Sesion} :
    ∀ {l : List (String × Sesion)}, buscaSesion wa l = some s → ∃ k, (k, s) ∈ l := by
  intro l
  induction l with
  | nil => intro h; simp [buscaSesion] at h
  | cons q r ih =>
    intro h
    unfold buscaSesion at h
    split at h
    · refine ⟨q.1, ?_⟩
      have hs : s = q.2 := by injection h with h2; exact h2.symm
      rw [hs]
      exact List.mem_cons_self _ _
    · rcases ih h with ⟨k, hk⟩
      exact ⟨k, List.mem_cons_of_mem _ hk⟩

theorem crear_sessions (c wa v : String) (w : World) :
    (crear_opcion c wa v w).sessions = w.sessions := by
  unfold crear_opcion; split_ifs <;> rfl

theorem crear_gastos (c wa v : String) (w : World) :
    (crear_opcion c wa v w).gastos = w.gastos := by
  unfold crear_opcion; split_ifs <;> rfl

theorem crear_processed (c wa v : String) (w : World) :
    (crear_opcion c wa v w).processed = w.processed := by
  unfold crear_opcion; split_ifs <;> rfl

/-! ### The safety invariant behind claim C6: every session past the
amount / payment-method questions carries a positive amount and a valid
method, and every persisted expense satisfies both. -/

def estadosConMonto : List String :=
  ["pide_descripcion", "pide_medio_pago", "banco_menu", "banco_valor", "banco_confirma_crear",
   "marca_menu", "marca_valor", "marca_confirma_crear", "pide_cuenta"]

def estadosConMedio : List String :=
  ["banco_menu", "banco_valor", "banco_confirma_crear",
   "marca_menu", "marca_valor", "marca_confirma_crear", "pide_cuenta"]

def montoOK (d : Datos) : Prop := ∃ q, d.monto = some q ∧ 0 < q

def medioOK (d : Datos) : Prop := ∃ m, d.medio_pago = some m ∧ m ∈ mediosValidos

def sesionInv (s : Sesion) : Prop :=
  (s.estado ∈ estadosConMonto → montoOK s.datos) ∧
  (s.estado ∈ estadosConMedio → medioOK s.datos)

def gastoInv (g : Gasto) : Prop :=
  0 < g.monto ∧ ∃ m, g.medio_pago = some m ∧ m ∈ mediosValidos

def WorldInv (w : World) : Prop :=
  (∀ p ∈ w.sessions, sesionInv p.2) ∧ (∀ g ∈ w.gastos, gastoInv g)

theorem inv_set {w : World} {est : String} {d0 : Datos} {n : Int} (wa : String)
    (hw : WorldInv w) (hs : sesionInv ⟨est, d0, n⟩) : WorldInv (set_conv wa est d0 n w) := by
  refine ⟨?_, hw.2⟩
  intro p hp
  rcases mem_ponAsoc hp with h | h
  · rw [h]; exact hs
  · exact hw.1 p h

theorem inv_clear {w : World} (wa : String) (hw : WorldInv w) : WorldInv (clear_conv wa w) :=
  ⟨fun p hp => hw.1 p (List.mem_filter.1 hp).1, hw.2⟩

theorem inv_crear {w : World} (c wa v : String) (hw : WorldInv w) :
    WorldInv (crear_opcion c wa v w) := by
  refine ⟨?_, ?_⟩
  · rw [crear_sessions]; exact hw.1
  · rw [crear_gastos]; exact hw.2

theorem inv_get {w : World} {wa : String} {s : Sesion} (hw : WorldInv w)
    (h : get_conv wa w = some s) : sesionInv s := by
  rcases buscaSesion_mem h with ⟨k, hk⟩
  exact hw.1 (k, s) hk

theorem sesionInv_fuera {est : String} {d : Datos} {n : Int}
    (h1 : est ∉ estadosConMonto) (h2 : est ∉ estadosConMedio) : sesionInv ⟨est, d, n⟩ :=
  ⟨fun h => absurd h h1, fun h => absurd h h2⟩

theorem medio_pago_valido_mem {t mp : String} (h : medio_pago_valido t = some mp) :
    mp ∈ mediosValidos := by
  dsimp only [medio_pago_valido] at h
  split at h
  · injection h with h2; rw [← h2]; assumption
  · exact absurd h (by simp)

/-! ### Frame facts: no router branch touches the dedup log, and only the
shortcut (line 296-299) ever emits a `consultar_libre` answer. -/

def Marco (w : World) (r : StepRes) : Prop :=
  r.world.processed = w.processed ∧ ∀ q, OutMsg.consultaLibre q ∉ r.out

theorem marcoMenu {w : World} {wa t : String} {ahora : Int} :
    Marco w (hMenu wa t ahora w) := by
  unfold Marco hMenu sinFallo set_conv
  try dsimp only
  split_ifs <;> simp

theorem marcoConsultaDesde {w : World} {wa t : String} {d : Datos} {ahora : Int} :
    Marco w (hConsultaDesde wa d t ahora w) := by
  unfold Marco hConsultaDesde sinFallo set_conv
  try dsimp only
  split <;> simp

theorem marcoConsultaHasta {w : World} {wa t : String} {d : Datos} {ahora : Int} :
    Marco w (hConsultaHasta wa d t ahora w) := by
  unfold Marco hConsultaHasta sinFallo set_conv
  try dsimp only
  split <;> simp

theorem marcoConsultaMedio {w : World} {wa t : String} {d : Datos} {ahora : Int} :
    Marco w (hConsultaMedio wa d t ahora w) := by
  unfold Marco hConsultaMedio sinFallo set_conv
  try dsimp only
  split <;> simp

theorem marcoCierraConsulta {w : World} {wa : String} {d : Datos} {ahora : Int} :
    Marco w (cierraConsulta wa d ahora w) := by
  unfold Marco cierraConsulta sinFallo set_conv
  try dsimp only
  simp

theorem marcoConsultaBancoMenu {w : World} {wa t texto : String} {d : Datos} {ahora : Int} :
    Marco w (hConsultaBancoMenu wa d t texto ahora w) := by
  unfold Marco hConsultaBancoMenu cierraConsulta sinFallo set_conv
  try dsimp only
  split_ifs <;> simp

theorem marcoConsultaBancoValor {w : World} {wa texto : String} {d : Datos} {ahora : Int} :
    Marco w (hConsultaBancoValor wa d texto ahora w) := by
  unfold Marco hConsultaBancoValor sinFallo set_conv
  try dsimp only
  simp

theorem marcoConsultaBancoConfirma {w : World} {wa t : String} {d : Datos} {ahora : Int} :
    Marco w (hConsultaBancoConfirma wa d t ahora w) := by
  unfold Marco hConsultaBancoConfirma cierraConsulta sinFallo set_conv
  try dsimp only
  split_ifs <;> simp [crear_processed]

theorem marcoConsultaConfirma {w : World} {wa from_id t : String} {d : Datos} :
    Marco w (hConsultaConfirma wa from_id d t w) := by
  unfold Marco hConsultaConfirma sinFallo clear_conv
  try dsimp only
  split_ifs <;> simp

theorem marcoConfirmaRegistro {w : World} {wa t : String} {ahora : Int} :
    Marco w (hConfirmaRegistro wa t ahora w) := by
  unfold Marco hConfirmaRegistro sinFallo set_conv clear_conv
  try dsimp only
  split_ifs <;> simp

theorem marcoFechaMomento {w : World} {wa t : String} {d : Datos} {ahora : Int} :
    Marco w (hFechaMomento wa d t ahora w) := by
  unfold Marco hFechaMomento sinFallo set_conv
  try dsimp only
  split_ifs <;> simp

theorem marcoPideFecha {w : World} {wa t : String} {d : Datos} {ahora : Int} :
    Marco w (hPideFecha wa d t ahora w) := by
  unfold Marco hPideFecha sinFallo set_conv
  try dsimp only
  split <;> simp

theorem marcoPideHora {w : World} {wa t : String} {d : Datos} {ahora : Int} :
    Marco w (hPideHora wa d t ahora w) := by
  unfold Marco hPideHora sinFallo set_conv
  try dsimp only
  split <;> simp

theorem marcoPideMonto {w : World} {wa texto : String} {d : Datos} {ahora : Int} :
    Marco w (hPideMonto wa d texto ahora w) := by
  unfold Marco hPideMonto sinFallo set_conv
  try dsimp only
  split <;> [simp; split_ifs <;> simp]

theorem marcoPideDescripcion {w : World} {wa texto : String} {d : Datos} {ahora : Int} :
    Marco w (hPideDescripcion wa d texto ahora w) := by
  unfold Marco hPideDescripcion sinFallo set_conv
  try dsimp only
  simp

theorem marcoPideMedioPago {w : World} {wa t : String} {d : Datos} {ahora : Int} :
    Marco w (hPideMedioPago wa d t ahora w) := by
  unfold Marco hPideMedioPago sinFallo set_conv
  try dsimp only
  split <;> simp

theorem marcoVaMarcaMenu {w : World} {wa : String} {d : Datos} {ahora : Int} :
    Marco w (vaMarcaMenu wa d ahora w) := by
  unfold Marco vaMarcaMenu sinFallo set_conv
  try dsimp only
  simp

theorem marcoBancoMenu {w : World} {wa t texto : String} {d : Datos} {ahora : Int} :
    Marco w (hBancoMenu wa d t texto ahora w) := by
  unfold Marco hBancoMenu vaMarcaMenu sinFallo set_conv
  try dsimp only
  split_ifs <;> simp

theorem marcoBancoValor {w : World} {wa texto : String} {d : Datos} {ahora : Int} :
    Marco w (hBancoValor wa d texto ahora w) := by
  unfold Marco hBancoValor sinFallo set_conv
  try dsimp only
  simp

theorem marcoBancoConfirmaCrear {w : World} {wa t : String} {d : Datos} {ahora : Int} :
    Marco w (hBancoConfirmaCrear wa d t ahora w) := by
  unfold Marco hBancoConfirmaCrear vaMarcaMenu sinFallo set_conv
  try dsimp only
  split_ifs <;> simp [crear_processed]

theorem marcoMarcaMenu {w : World} {wa t texto : String} {d : Datos} {ahora : Int} :
    Marco w (hMarcaMenu wa d t texto ahora w) := by
  unfold Marco hMarcaMenu sinFallo set_conv
  try dsimp only
  split_ifs <;> simp

theorem marcoMarcaValor {w : World} {wa texto : String} {d : Datos} {ahora : Int} :
    Marco w (hMarcaValor wa d texto ahora w) := by
  unfold Marco hMarcaValor sinFallo set_conv
  try dsimp only
  simp

theorem marcoMarcaConfirmaCrear {w : World} {wa t : String} {d : Datos} {ahora : Int} :
    Marco w (hMarcaConfirmaCrear wa d t ahora w) := by
  unfold Marco hMarcaConfirmaCrear sinFallo set_conv
  try dsimp only
  split_ifs <;> simp [crear_processed]

theorem marcoCometeGasto {w : World} {wa : String} {g : Gasto} :
    Marco w (cometeGasto wa w g) := by
  unfold Marco cometeGasto guardar_gasto sinFallo clear_conv
  split_ifs <;> simp

theorem marcoPideCuenta {w : World} {wa t texto : String} {d : Datos} {ahora : Int} :
    Marco w (hPideCuenta wa d t texto ahora w) := by
  unfold hPideCuenta
  try dsimp only
  exact marcoCometeGasto

set_option maxHeartbeats 1000000 in
theorem routeState_marco {w : World} {wa from_id estado t texto : String} {d : Datos}
    {ahora : Int} : Marco w (routeState wa from_id estado d t texto ahora w) := by
  unfold routeState
  split
  · exact marcoMenu
  · exact marcoConsultaDesde
  · exact marcoConsultaHasta
  · exact marcoConsultaMedio
  · exact marcoConsultaBancoMenu
  · exact marcoConsultaBancoValor
  · exact marcoConsultaBancoConfirma
  · exact marcoConsultaConfirma
  · exact marcoConfirmaRegistro
  · exact marcoFechaMomento
  · exact marcoPideFecha
  · exact marcoPideHora
  · exact marcoPideMonto
  · exact marcoPideDescripcion
  · exact marcoPideMedioPago
  · exact marcoBancoMenu
  · exact marcoBancoValor
  · exact marcoBancoConfirmaCrear
  · exact marcoMarcaMenu
  · exact marcoMarcaValor
  · exact marcoMarcaConfirmaCrear
  · exact marcoPideCuenta
  · exact ⟨rfl, by simp [sinFallo]⟩

/-! ### Invariant preservation, handler by handler -/

theorem sesionInvTodo {est : String} {d' : Datos} {n : Int}
    (hm : montoOK d') (hq : medioOK d') : sesionInv ⟨est, d', n⟩ :=
  ⟨fun _ => hm, fun _ => hq⟩

theorem sesionInvMonto {est : String} {d' : Datos} {n : Int}
    (hm : montoOK d') (hq : est ∉ estadosConMedio) : sesionInv ⟨est, d', n⟩ :=
  ⟨fun _ => hm, fun h => absurd h hq⟩

theorem invMenu {w : World} {wa t : String} {ahora : Int} (hw : WorldInv w) :
    WorldInv (hMenu wa t ahora w).world := by
  unfold hMenu
  split_ifs
  · exact inv_set wa hw (sesionInv_fuera (by decide) (by decide))
  · exact inv_set wa hw (sesionInv_fuera (by decide) (by decide))
  · exact hw

theorem invConsultaDesde {w : World} {wa t : String} {d : Datos} {ahora : Int}
    (hw : WorldInv w) : WorldInv (hConsultaDesde wa d t ahora w).world := by
  unfold hConsultaDesde
  split
  · exact hw
  · exact inv_set wa hw (sesionInv_fuera (by decide) (by decide))

theorem invConsultaHasta {w : World} {wa t : String} {d : Datos} {ahora : Int}
    (hw : WorldInv w) : WorldInv (hConsultaHasta wa d t ahora w).world := by
  unfold hConsultaHasta
  split
  · exact hw
  · exact inv_set wa hw (sesionInv_fuera (by decide) (by decide))

theorem invConsultaMedio {w : World} {wa t : String} {d : Datos} {ahora : Int}
    (hw : WorldInv w) : WorldInv (hConsultaMedio wa d t ahora w).world := by
  unfold hConsultaMedio
  split
  · exact inv_set wa hw (sesionInv_fuera (by decide) (by decide))
  · exact hw

theorem invCierra {w : World} {wa : String} {d : Datos} {ahora : Int}
    (hw : WorldInv w) : WorldInv (cierraConsulta wa d ahora w).world :=
  inv_set wa hw (sesionInv_fuera (by decide) (by decide))

theorem invConsultaBancoMenu {w : World} {wa t texto : String} {d : Datos} {ahora : Int}
    (hw : WorldInv w) : WorldInv (hConsultaBancoMenu wa d t texto ahora w).world := by
  unfold hConsultaBancoMenu
  try dsimp only
  split_ifs <;>
    first
      | exact invCierra hw
      | exact inv_set wa hw (sesionInv_fuera (by decide) (by decide))
      | exact hw

theorem invConsultaBancoValor {w : World} {wa texto : String} {d : Datos} {ahora : Int}
    (hw : WorldInv w) : WorldInv (hConsultaBancoValor wa d texto ahora w).world :=
  inv_set wa hw (sesionInv_fuera (by decide) (by decide))

theorem invConsultaBancoConfirma {w : World} {wa t : String} {d : Datos} {ahora : Int}
    (hw : WorldInv w) : WorldInv (hConsultaBancoConfirma wa d t ahora w).world := by
  unfold hConsultaBancoConfirma
  try dsimp only
  split_ifs
  · exact invCierra (inv_crear _ _ _ hw)
  · exact inv_set wa hw (sesionInv_fuera (by decide) (by decide))
  · exact hw

theorem invConsultaConfirma {w : World} {wa from_id t : String} {d : Datos}
    (hw : WorldInv w) : WorldInv (hConsultaConfirma wa from_id d t w).world := by
  unfold hConsultaConfirma
  try dsimp only
  split_ifs
  · exact inv_clear wa hw
  · exact inv_clear wa hw
  · exact hw

theorem invConfirmaRegistro {w : World} {wa t : String} {ahora : Int}
    (hw : WorldInv w) : WorldInv (hConfirmaRegistro wa t ahora w).world := by
  unfold hConfirmaRegistro
  try dsimp only
  split_ifs
  · exact inv_set wa hw (sesionInv_fuera (by decide) (by decide))
  · exact inv_clear wa hw
  · exact hw

theorem invFechaMomento {w : World} {wa t : String} {d : Datos} {ahora : Int}
    (hw : WorldInv w) : WorldInv (hFechaMomento wa d t ahora w).world := by
  unfold hFechaMomento
  try dsimp only
  split_ifs
  · exact inv_set wa hw (sesionInv_fuera (by decide) (by decide))
  · exact inv_set wa hw (sesionInv_fuera (by decide) (by decide))
  · exact hw

theorem invPideFecha {w : World} {wa t : String} {d : Datos} {ahora : Int}
    (hw : WorldInv w) : WorldInv (hPideFecha wa d t ahora w).world := by
  unfold hPideFecha
  split
  · exact hw
  · exact inv_set wa hw (sesionInv_fuera (by decide) (by decide))

theorem invPideHora {w : World} {wa t : String} {d : Datos} {ahora : Int}
    (hw : WorldInv w) : WorldInv (hPideHora wa d t ahora w).world := by
  unfold hPideHora
  split
  · exact hw
  · exact inv_set wa hw (sesionInv_fuera (by decide) (by decide))

theorem invPideMonto {w : World} {wa texto : String} {d : Datos} {ahora : Int}
    (hw : WorldInv w) : WorldInv (hPideMonto wa d texto ahora w).world := by
  unfold hPideMonto
  rcases hp : parse_monto_moneda texto with _ | ⟨q, mon⟩
  · simp only [hp]; exact hw
  · simp only [hp]
    split_ifs with hz
    · exact hw
    · exact inv_set wa hw
        (sesionInvMonto ⟨q, rfl, Nat.pos_of_ne_zero hz⟩ (by decide))

theorem invPideDescripcion {w : World} {wa texto : String} {d : Datos} {ahora : Int}
    (hw : WorldInv w) (hm : montoOK d) :
    WorldInv (hPideDescripcion wa d texto ahora w).world :=
  inv_set wa hw (sesionInvMonto hm (by decide))

theorem invPideMedioPago {w : World} {wa t : String} {d : Datos} {ahora : Int}
    (hw : WorldInv w) (hm : montoOK d) :
    WorldInv (hPideMedioPago wa d t ahora w).world := by
  unfold hPideMedioPago
  rcases hp : medio_pago_valido t with _ | mp
  · simp only [hp]; exact hw
  · simp only [hp]
    exact inv_set wa hw ⟨fun _ => hm, fun _ => ⟨mp, rfl, medio_pago_valido_mem hp⟩⟩

theorem invVaMarca {w : World} {wa : String} {d : Datos} {ahora : Int}
    (hw : WorldInv w) (hm : montoOK d) (hq : medioOK d) :
    WorldInv (vaMarcaMenu wa d ahora w).world :=
  inv_set wa hw (sesionInvTodo hm hq)

theorem invBancoMenu {w : World} {wa t texto : String} {d : Datos} {ahora : Int}
    (hw : WorldInv w) (hm : montoOK d) (hq : medioOK d) :
    WorldInv (hBancoMenu wa d t texto ahora w).world := by
  unfold hBancoMenu
  try dsimp only
  split_ifs <;>
    first
      | exact invVaMarca hw hm hq
      | exact inv_set wa hw (sesionInvTodo hm hq)
      | exact hw

theorem invBancoValor {w : World} {wa texto : String} {d : Datos} {ahora : Int}
    (hw : WorldInv w) (hm : montoOK d) (hq : medioOK d) :
    WorldInv (hBancoValor wa d texto ahora w).world :=
  inv_set wa hw (sesionInvTodo hm hq)

theorem invBancoConfirmaCrear {w : World} {wa t : String} {d : Datos} {ahora : Int}
    (hw : WorldInv w) (hm : montoOK d) (hq : medioOK d) :
    WorldInv (hBancoConfirmaCrear wa d t ahora w).world := by
  unfold hBancoConfirmaCrear
  try dsimp only
  split_ifs
  · exact invVaMarca (inv_crear _ _ _ hw) hm hq
  · exact inv_set wa hw (sesionInvTodo hm hq)
  · exact hw

theorem invMarcaMenu {w : World} {wa t texto : String} {d : Datos} {ahora : Int}
    (hw : WorldInv w) (hm : montoOK d) (hq : medioOK d) :
    WorldInv (hMarcaMenu wa d t texto ahora w).world := by
  unfold hMarcaMenu
  try dsimp only
  split_ifs <;>
    first
      | exact inv_set wa hw (sesionInvTodo hm hq)
      | exact hw

theorem invMarcaValor {w : World} {wa texto : String} {d : Datos} {ahora : Int}
    (hw : WorldInv w) (hm : montoOK d) (hq : medioOK d) :
    WorldInv (hMarcaValor wa d texto ahora w).world :=
  inv_set wa hw (sesionInvTodo hm hq)

theorem invMarcaConfirmaCrear {w : World} {wa t : String} {d : Datos} {ahora : Int}
    (hw : WorldInv w) (hm : montoOK d) (hq : medioOK d) :
    WorldInv (hMarcaConfirmaCrear wa d t ahora w).world := by
  unfold hMarcaConfirmaCrear
  try dsimp only
  split_ifs
  · exact inv_set wa (inv_crear _ _ _ hw) (sesionInvTodo hm hq)
  · exact inv_set wa hw (sesionInvTodo hm hq)
  · exact hw

theorem invCometeGasto {w : World} {wa : String} {g : Gasto}
    (hw : WorldInv w) (hg : gastoInv g) : WorldInv (cometeGasto wa w g).world := by
  unfold cometeGasto guardar_gasto
  split_ifs with hOk
  · refine inv_clear wa ⟨hw.1, ?_⟩
    intro g' hg'
    rcases List.mem_append.1 hg' with h | h
    · exact hw.2 g' h
    · rw [List.mem_singleton.1 h]; exact hg
  · exact hw

theorem invPideCuenta {w : World} {wa t texto : String} {d : Datos} {ahora : Int}
    (hw : WorldInv w) (hm : montoOK d) (hq : medioOK d) :
    WorldInv (hPideCuenta wa d t texto ahora w).world := by
  unfold hPideCuenta
  try dsimp only
  rcases hm with ⟨q, hqm, hqpos⟩
  rcases hq with ⟨m, hmm, hmmem⟩
  refine invCometeGasto hw ⟨?_, m, ?_, hmmem⟩
  · show 0 < (if (Option.isNone d.fecha_hora_utc) then _ else _ : Datos).monto.getD 0
    split_ifs <;> (show 0 < d.monto.getD 0; rw [hqm]; exact hqpos)
  · show (if (Option.isNone d.fecha_hora_utc) then _ else _ : Datos).medio_pago = some m
    split_ifs <;> (show d.medio_pago = some m; exact hmm)

set_option maxHeartbeats 1000000 in
theorem routeState_inv {w : World} {wa from_id estado t texto : String} {d : Datos} {ahora : Int}
    (hw : WorldInv w)
    (hm : estado ∈ estadosConMonto → montoOK d)
    (hq : estado ∈ estadosConMedio → medioOK d) :
    WorldInv (routeState wa from_id estado d t texto ahora w).world := by
  unfold routeState
  split
  · exact invMenu hw
  · exact invConsultaDesde hw
  · exact invConsultaHasta hw
  · exact invConsultaMedio hw
  · exact invConsultaBancoMenu hw
  · exact invConsultaBancoValor hw
  · exact invConsultaBancoConfirma hw
  · exact invConsultaConfirma hw
  · exact invConfirmaRegistro hw
  · exact invFechaMomento hw
  · exact invPideFecha hw
  · exact invPideHora hw
  · exact invPideMonto hw
  · exact invPideDescripcion hw (hm (by decide))
  · exact invPideMedioPago hw (hm (by decide))
  · exact invBancoMenu hw (hm (by decide)) (hq (by decide))
  · exact invBancoValor hw (hm (by decide)) (hq (by decide))
  · exact invBancoConfirmaCrear hw (hm (by decide)) (hq (by decide))
  · exact invMarcaMenu hw (hm (by decide)) (hq (by decide))
  · exact invMarcaValor hw (hm (by decide)) (hq (by decide))
  · exact invMarcaConfirmaCrear hw (hm (by decide)) (hq (by decide))
  · exact invPideCuenta hw (hm (by decide)) (hq (by decide))
  · exact hw

theorem despacha_inv {w : World} {wa from_id t texto : String} {sess : Option Sesion}
    {ahora : Int} (hw : WorldInv w) (hs : ∀ s, sess = some s → sesionInv s) :
    WorldInv (despacha wa from_id sess t texto ahora w).world := by
  unfold despacha
  split_ifs
  · exact inv_clear wa hw
  · exact hw
  · exact inv_set wa hw (sesionInv_fuera (by decide) (by decide))
  · cases sess with
    | none => exact inv_set wa hw (sesionInv_fuera (by decide) (by decide))
    | some s => exact routeState_inv hw (fun h => (hs s rfl).1 h) (fun h => (hs s rfl).2 h)

theorem incoming_inv {w : World} {e : Evento} {ahora : Int} (hw : WorldInv w) :
    WorldInv (incoming e ahora w).world := by
  unfold incoming
  cases e.remitente with
  | none => exact hw
  | some from_id =>
    try dsimp only
    split_ifs with hdup hvacio
    · exact hw
    · -- mid = "" : the world passed on is `w` itself
      rcases hg : get_conv ("+" ++ from_id) w with _ | s
      · simp only [hg]
        exact despacha_inv hw (fun s h => by cases h)
      · simp only [hg]
        split_ifs
        · exact inv_clear _ hw
        · exact despacha_inv hw (fun s' h => by
            injection h with h2; rw [← h2]; exact inv_get hw hg)
    · -- mid registered first
      have hw1 : WorldInv { w with processed := (e.mid.getD "") :: w.processed } := ⟨hw.1, hw.2⟩
      rcases hg : get_conv ("+" ++ from_id) { w with processed := (e.mid.getD "") :: w.processed }
        with _ | s
      · simp only [hg]
        exact despacha_inv hw1 (fun s h => by cases h)
      · simp only [hg]
        split_ifs
        · exact inv_clear _ hw1
        · exact despacha_inv hw1 (fun s' h => by
            injection h with h2; rw [← h2]; exact inv_get hw1 hg)

/-- All worlds the deployed system can inhabit: the empty store (with the
    expense writer up or down), every webhook delivery, and arbitrary
    changes of writer availability between deliveries. -/
inductive Alcanzable : World → Prop
  | inicial (b : Bool) : Alcanzable ⟨[], [], [], [], [], [], b⟩
  | paso (e : Evento) (ahora : Int) {w : World} :
      Alcanzable w → Alcanzable (incoming e ahora w).world
  | escritor (b : Bool) {w : World} : Alcanzable w → Alcanzable { w with escritorOk := b }

theorem alcanzable_inv {w : World} (h : Alcanzable w) : WorldInv w := by
  induction h with
  | inicial b => exact ⟨(fun p hp => nomatch hp), (fun g hg => nomatch hg)⟩
  | paso e ahora _ ih => exact incoming_inv ih
  | escritor b _ ih => exact ⟨ih.1, ih.2⟩

/-! ### Lookup lemmas for the session store -/

theorem buscaSesion_ponAsoc (wa : String) (s : Sesion) :
    ∀ l : List (String × Sesion), buscaSesion wa (ponAsoc wa s l) = some s := by
  intro l
  induction l with
  | nil => simp [ponAsoc, buscaSesion]
  | cons p r ih =>
    unfold ponAsoc
    split_ifs with h
    · simp [buscaSesion]
    · unfold buscaSesion
      rw [if_neg h]
      exact ih

theorem get_conv_set (wa est : String) (d : Datos) (n : Int) (w : World) :
    get_conv wa (set_conv wa est d n w) = some ⟨est, d, n⟩ :=
  buscaSesion_ponAsoc wa _ w.sessions

theorem buscaSesion_filtra (wa : String) :
    ∀ l : List (String × Sesion),
      buscaSesion wa (l.filter (fun p => !(p.1 = wa : Bool))) = none := by
  intro l
  induction l with
  | nil => simp [buscaSesion]
  | cons p r ih =>
    by_cases h : p.1 = wa
    · simpa [List.filter_cons, h] using ih
    · have hf : (!decide (p.1 = wa)) = true := by simp [h]
      rw [List.filter_cons, if_pos hf]
      unfold buscaSesion
      rw [if_neg h]
      exact ih

theorem get_conv_clear (wa : String) (w : World) :
    get_conv wa (clear_conv wa w) = none :=
  buscaSesion_filtra wa w.sessions

/-! ### Dispatch frame lemmas -/

theorem despacha_processed {w : World} {wa from_id t texto : String} {sess : Option Sesion}
    {ahora : Int} :
    (despacha wa from_id sess t texto ahora w).world.processed = w.processed := by
  unfold despacha
  split_ifs
  · rfl
  · rfl
  · rfl
  · cases sess with
    | none => rfl
    | some s => exact routeState_marco.1

theorem despacha_noLibre {w : World} {wa from_id t texto : String} {sess : Option Sesion}
    {ahora : Int} (h : ¬ atajoLibre t = true) :
    ∀ q, OutMsg.consultaLibre q ∉ (despacha wa from_id sess t texto ahora w).out := by
  by_cases hc : t ∈ ["cancelar", "salir", "stop"]
  · simp [despacha, hc, sinFallo]
  · by_cases hs : t ∈ saludos
    · simp [despacha, hc, h, hs, sinFallo]
    · simp only [despacha, if_neg hc, if_neg h, if_neg hs]
      cases sess with
      | none => simp [sinFallo]
      | some s => exact routeState_marco.2

theorem get_conv_registrar (wa mid : String) (w : World) :
    get_conv wa (if mid = "" then w else { w with processed := mid :: w.processed }) =
      get_conv wa w := by
  split_ifs <;> rfl

/-- Reduction of `incoming` for a delivery that passes envelope
    extraction and deduplication. -/
theorem incoming_reduce {e : Evento} {f : String} {ahora : Int} {w : World}
    (hrem : e.remitente = some f)
    (hfresh : ¬(e.mid.getD "" ≠ "" ∧ e.mid.getD "" ∈ w.processed)) :
    incoming e ahora w =
      (let mid := e.mid.getD ""
       let w1 := if mid = "" then w else { w with processed := mid :: w.processed }
       let wa := "+" ++ f
       let texto := pyStrip e.cuerpo
       let t := pyLower texto
       match get_conv wa w1 with
       | some s =>
         if s.estado ≠ "" ∧ session_expirada ahora s.actualizado_en then
           sinFallo (clear_conv wa w1) [.timeoutNote]
         else despacha wa f (some s) t texto ahora w1
       | none => despacha wa f none t texto ahora w1) := by
  obtain ⟨m, r, c⟩ := e
  simp only at hrem hfresh
  subst hrem
  unfold incoming
  try dsimp only
  rw [if_neg hfresh]

theorem incoming_processed {e : Evento} {f m : String} {ahora : Int} {w : World}
    (hrem : e.remitente = some f) (hm : e.mid = some m) (hne : m ≠ "") :
    (incoming e ahora w).world.processed =
      if m ∈ w.processed then w.processed else m :: w.processed := by
  by_cases hdup : m ∈ w.processed
  · rw [if_pos hdup]
    obtain ⟨mo, r, c⟩ := e
    simp only at hrem hm
    subst hrem; subst hm
    unfold incoming
    try dsimp only
    rw [if_pos ⟨hne, hdup⟩]
    rfl
  · rw [if_neg hdup]
    rw [incoming_reduce hrem (by rw [hm]; exact fun hc => hdup hc.2)]
    try dsimp only
    simp only [hm, Option.getD_some]
    rw [if_neg hne]
    rcases hg : get_conv ("+" ++ f) { w with processed := m :: w.processed } with _ | s
    · simp only [hg]
      exact despacha_processed
    · simp only [hg]
      split_ifs
      · rfl
      · exact despacha_processed

theorem incoming_processed_vacio {e : Evento} {f : String} {ahora : Int} {w : World}
    (hrem : e.remitente = some f) (hm : e.mid.getD "" = "") :
    (incoming e ahora w).world.processed = w.processed := by
  rw [incoming_reduce hrem (by rw [hm]; exact fun hc => hc.1 rfl)]
  try dsimp only
  simp only [hm, if_pos]
  rcases hg : get_conv ("+" ++ f) w with _ | s
  · simp only [hg]
    exact despacha_processed
  · simp only [hg]
    split_ifs
    · rfl
    · exact despacha_processed

/-! ### Scanner lemmas for the amount and date extractors -/

theorem takeDrop_digitos {rest : List Char}
    (hrest : ∀ c, rest.head? = some c → c.isDigit = false) :
    ∀ ds : List Char, (∀ c ∈ ds, c.isDigit = true) →
      (ds ++ rest).takeWhile Char.isDigit = ds ∧
      (ds ++ rest).dropWhile Char.isDigit = rest := by
  intro ds
  induction ds with
  | nil =>
    intro _
    cases rest with
    | nil => simp
    | cons c r =>
      have hc := hrest c rfl
      simp [List.takeWhile_cons, List.dropWhile_cons, hc]
  | cons a as ih =>
    intro hds
    have ha := hds a (List.mem_cons_self a as)
    have h2 := ih (fun c hc => hds c (List.mem_cons_of_mem _ hc))
    simp only [List.cons_append, List.takeWhile_cons, List.dropWhile_cons, ha]
    simp [h2.1, h2.2]

theorem tomaDigitos_append {ds rest : List Char}
    (hds : ∀ c ∈ ds, c.isDigit = true)
    (hrest : ∀ c, rest.head? = some c → c.isDigit = false) :
    tomaDigitos (ds ++ rest) = (ds, rest) := by
  unfold tomaDigitos
  have h := takeDrop_digitos hrest ds hds
  rw [h.1, h.2]

theorem buscaMonto_cabeza {c : Char} {r : List Char} (hc : c.isDigit = true) :
    buscaMonto (c :: r) = some (montoEn (c :: r)) := by
  unfold buscaMonto
  rw [if_pos hc]

theorem buscaMonto_sinDigito : ∀ cs : List Char, (∀ c ∈ cs, c.isDigit = false) →
    buscaMonto cs = none := by
  intro cs
  induction cs with
  | nil => intro _; rfl
  | cons c r ih =>
    intro h
    unfold buscaMonto
    rw [if_neg (by simp [h c (List.mem_cons_self c r)])]
    exact ih (fun x hx => h x (List.mem_cons_of_mem _ hx))

theorem buscaTokenFecha_en {cs : List Char} :
    ∀ (i : Nat) (tok : Nat × Nat × Nat), tokenFechaEn (cs.drop i) = some tok →
      (∀ j, j < i → tokenFechaEn (cs.drop j) = none) →
      buscaTokenFecha cs = some tok := by
  induction cs with
  | nil =>
    intro i tok h _
    rw [List.drop_nil] at h
    exact absurd h (by simp [tokenFechaEn])
  | cons c r ih =>
    intro i tok h hprev
    cases i with
    | zero =>
      rw [List.drop_zero] at h
      unfold buscaTokenFecha
      rw [h]
    | succ k =>
      have h0 : tokenFechaEn (c :: r) = none := by
        have := hprev 0 (Nat.succ_pos k)
        simpa using this
      unfold buscaTokenFecha
      rw [h0]
      exact ih k tok (by simpa [List.drop_succ_cons] using h)
        (fun j hj => by
          have := hprev (j + 1) (by omega)
          simpa [List.drop_succ_cons] using this)

theorem buscaTokenFecha_nada : ∀ cs : List Char,
    (∀ i, tokenFechaEn (cs.drop i) = none) → buscaTokenFecha cs = none := by
  intro cs
  induction cs with
  | nil => intro _; rfl
  | cons c r ih =>
    intro h
    unfold buscaTokenFecha
    rw [show tokenFechaEn (c :: r) = none from by simpa using h 0]
    exact ih (fun i => by simpa [List.drop_succ_cons] using h (i + 1))

/-! ### Claim C8: `parse_fecha` -/

/-- C8 (counterexample): the string `"2025-02-30 2025-03-01"` contains the
    valid ISO pattern `2025-03-01` (at offset 11), yet `parse_fecha`
    returns no match, because the leftmost date-shaped token
    `2025-02-30` fails calendar validity and the `except` branch returns
    `None` without scanning further.  This refutes "for every string
    containing a valid ISO `YYYY-MM-DD` pattern, `parse_fecha` returns
    exactly that calendar date". -/
theorem C8_contraejemplo :
    parse_fecha "2025-02-30 2025-03-01" = none ∧
    tokenFechaEn (("2025-02-30 2025-03-01" : String).data.drop 11) = some (2025, 3, 1) ∧
    fechaValida 2025 3 1 = true := by decide

/-- C8 (amended): `parse_fecha` scans for the *leftmost* date-shaped
    token `\d{4}-\d{2}-\d{2}`; if that token is calendar-valid it
    returns exactly that date, otherwise — even when a later valid token
    exists — it returns no match; a string with no date-shaped token also
    returns no match. -/
theorem C8_teorema (cs : List Char) :
    (∀ (i y m d : Nat), tokenFechaEn (cs.drop i) = some (y, m, d) →
      (∀ j, j < i → tokenFechaEn (cs.drop j) = none) →
      parse_fecha ⟨cs⟩ = if fechaValida y m d then some ⟨y, m, d⟩ else none) ∧
    ((∀ i, tokenFechaEn (cs.drop i) = none) → parse_fecha ⟨cs⟩ = none) := by
  constructor
  · intro i y m d h hprev
    unfold parse_fecha
    rw [show (⟨cs⟩ : String).data = cs from rfl, buscaTokenFecha_en i (y, m, d) h hprev]
  · intro h
    unfold parse_fecha
    rw [show (⟨cs⟩ : String).data = cs from rfl, buscaTokenFecha_nada cs h]

/-- C8 (witness): the amended theorem applied to `"x2025-02-30y"`, whose
    leftmost token sits at offset 1 and is calendar-invalid. -/
theorem C8_testigo :
    tokenFechaEn (("x2025-02-30y" : String).data.drop 1) = some (2025, 2, 30) ∧
    parse_fecha "x2025-02-30y" = none := by
  refine ⟨by decide, ?_⟩
  have h := (C8_teorema ("x2025-02-30y" : String).data).1 1 2025 2 30 (by decide)
    (fun j hj => by
      have hj0 : j = 0 := by omega
      subst hj0
      decide)
  rw [show parse_fecha "x2025-02-30y" =
        parse_fecha ⟨("x2025-02-30y" : String).data⟩ from rfl, h]
  decide

/-! ### Claim C7: `parse_monto_moneda` -/

/-- The shape quantified over by the spec sentence: digits, an optional
    fractional part, an optional currency code separated by one space. -/
def textoMonto (ent : List Char) (frac : Option (Char × List Char)) (cod : Option String) :
    String :=
  ⟨ent ++ (match frac with | none => [] | some (sep, fs) => sep :: fs) ++
    (match cod with | none => [] | some c => ' ' :: c.data)⟩

def fracDe : Option (Char × List Char) → List Char
  | none => []
  | some (_, fs) => fs

def esVersion (c bajo : Char) : Prop := c = bajo ∨ c = bajo.toUpper

/-- `group(2).upper()` with the `"ARS"` default. -/
def monedaEsperada : Option String → String
  | none => "ARS"
  | some c => pyUpper c

/-- A 3-letter code the regex alternation `(ars|usd|eur|brl)` accepts,
    letter by letter in either case. -/
def codigoReconocido (c : String) : Prop :=
  ∃ x y z, c.data = [x, y, z] ∧
    ((esVersion x 'a' ∧ esVersion y 'r' ∧ esVersion z 's') ∨
     (esVersion x 'u' ∧ esVersion y 's' ∧ esVersion z 'd') ∨
     (esVersion x 'e' ∧ esVersion y 'u' ∧ esVersion z 'r') ∨
     (esVersion x 'b' ∧ esVersion y 'r' ∧ esVersion z 'l'))

theorem recortaIzq_espacio (l : List Char) : recortaIzq (' ' :: l) = recortaIzq l := by
  simp [recortaIzq, List.dropWhile_cons, esEspacio]

theorem codigo_calc {c : String} (h : codigoReconocido c) :
    recortaIzq c.data = c.data ∧ monedaEn c.data = some (pyUpper c) := by
  obtain ⟨x, y, z, hdata, hcase⟩ := h
  obtain ⟨cl⟩ := c
  simp only [String.data] at hdata
  subst hdata
  rcases hcase with ⟨hx, hy, hz⟩ | ⟨hx, hy, hz⟩ | ⟨hx, hy, hz⟩ | ⟨hx, hy, hz⟩ <;>
    rcases hx with rfl | rfl <;> rcases hy with rfl | rfl <;> rcases hz with rfl | rfl <;> decide

theorem montoEn_sinFrac {ent cp : List Char}
    (hsplit : tomaDigitos (ent ++ cp) = (ent, cp))
    (hcp : cp = [] ∨ ∃ rest, cp = ' ' :: rest) :
    montoEn (ent ++ cp) = (centavosDeDigitos ent [], (monedaEn (recortaIzq cp)).getD "ARS") := by
  unfold montoEn
  rw [hsplit]
  rcases hcp with rfl | ⟨rest, rfl⟩
  · rfl
  · rfl

theorem montoEn_conFrac {ent fs cp : List Char} {sep : Char}
    (hsplit : tomaDigitos (ent ++ (sep :: (fs ++ cp))) = (ent, sep :: (fs ++ cp)))
    (hsep : sep = '.' ∨ sep = ',') (hfs : fs ≠ []) (hlen : fs.length ≤ 2)
    (hsplit2 : tomaDigitos (fs ++ cp) = (fs, cp)) :
    montoEn (ent ++ (sep :: (fs ++ cp))) =
      (centavosDeDigitos ent fs, (monedaEn (recortaIzq cp)).getD "ARS") := by
  unfold montoEn
  rw [hsplit]
  have hno : fs.isEmpty = false := by
    cases fs with
    | nil => exact absurd rfl hfs
    | cons a as => rfl
  simp only [if_pos hsep, hsplit2, hno]
  rw [List.take_of_length_le hlen, List.drop_eq_nil_of_le hlen]
  simp

/-- C7 (counterexample): `parse_monto_moneda "0"` yields amount zero
    (not positive), and `"100 gbp"` yields the default currency `"ARS"`
    instead of the given 3-letter code uppercased, because the regex only
    recognizes `ars|usd|eur|brl`.  Amounts are in centavos. -/
theorem C7_contraejemplo :
    parse_monto_moneda "0" = some (0, "ARS") ∧
    parse_monto_moneda "100 gbp" = some (10000, "ARS") := by decide

/-- C7 (amended): for every amount string `<digits>[.,<frac>]` optionally
    followed by one of the four recognized currency codes (`ars`, `usd`,
    `eur`, `brl`, letter case free), `parse_monto_moneda` returns exactly
    the written decimal value (in centavos) paired with the code
    uppercased, or `"ARS"` when the code is absent; the value is positive
    whenever the integer digits are nonzero; and a string with no digit
    yields the no-amount result. -/
theorem C7_teorema (ent : List Char) (frac : Option (Char × List Char)) (cod : Option String)
    (hne : ent ≠ []) (hdig : ∀ c ∈ ent, c.isDigit = true)
    (hfrac : ∀ sep fs, frac = some (sep, fs) →
      (sep = '.' ∨ sep = ',') ∧ fs ≠ [] ∧ fs.length ≤ 2 ∧ ∀ c ∈ fs, c.isDigit = true)
    (hcod : ∀ c, cod = some c → codigoReconocido c) :
    parse_monto_moneda (textoMonto ent frac cod) =
      some (centavosDeDigitos ent (fracDe frac), monedaEsperada cod) ∧
    (natDeDigitos ent ≠ 0 → 0 < centavosDeDigitos ent (fracDe frac)) ∧
    (∀ s : String, (∀ c ∈ s.data, c.isDigit = false) → parse_monto_moneda s = none) := by
  refine ⟨?_, ?_, fun s hs => buscaMonto_sinDigito s.data hs⟩
  · -- the currency tail and its two facts
    have hcpHead : ∀ c, (match cod with
        | none => ([] : List Char)
        | some c => ' ' :: c.data).head? = some c → c.isDigit = false := by
      cases cod with
      | none => intro c hc; cases hc
      | some cs => intro c hc; injection hc with h2; rw [← h2]; decide
    have hmon : (monedaEn (recortaIzq (match cod with
        | none => ([] : List Char)
        | some c => ' ' :: c.data))).getD "ARS" = monedaEsperada cod := by
      cases cod with
      | none => decide
      | some cs =>
        have h := codigo_calc (hcod cs rfl)
        rw [recortaIzq_espacio, h.1, h.2]
        rfl
    rcases hent : ent with _ | ⟨c0, ent'⟩
    · exact absurd hent hne
    rw [← hent]
    cases hfc : frac with
    | none =>
      have hsplit : tomaDigitos (ent ++ (match cod with
          | none => ([] : List Char)
          | some c => ' ' :: c.data)) = (ent, _) := tomaDigitos_append hdig hcpHead
      have : parse_monto_moneda (textoMonto ent none cod) =
          some (montoEn (ent ++ (match cod with
            | none => ([] : List Char)
            | some c => ' ' :: c.data))) := by
        unfold parse_monto_moneda textoMonto
        rw [show ent ++ [] ++ (match cod with
            | none => ([] : List Char)
            | some c => ' ' :: c.data) = ent ++ (match cod with
            | none => ([] : List Char)
            | some c => ' ' :: c.data) from by simp]
        rw [hent, List.cons_append]
        exact buscaMonto_cabeza (hdig c0 (by rw [hent]; exact List.mem_cons_self _ _))
      rw [this, montoEn_sinFrac hsplit (by
        cases cod with
        | none => exact Or.inl rfl
        | some cs => exact Or.inr ⟨cs.data, rfl⟩), hmon]
      rfl
    | some pr =>
      obtain ⟨sep, fs⟩ := pr
      have hf := hfrac sep fs hfc
      have hsplit2 : tomaDigitos (fs ++ (match cod with
          | none => ([] : List Char)
          | some c => ' ' :: c.data)) = (fs, _) := tomaDigitos_append hf.2.2.2 hcpHead
      have hsplit : tomaDigitos (ent ++ (sep :: (fs ++ (match cod with
          | none => ([] : List Char)
          | some c => ' ' :: c.data)))) = (ent, _) :=
        tomaDigitos_append hdig (by
          intro c hc
          injection hc with h2
          rw [← h2]
          rcases hf.1 with rfl | rfl <;> decide)
      have : parse_monto_moneda (textoMonto ent (some (sep, fs)) cod) =
          some (montoEn (ent ++ (sep :: (fs ++ (match cod with
            | none => ([] : List Char)
            | some c => ' ' :: c.data))))) := by
        unfold parse_monto_moneda textoMonto
        rw [show ent ++ (sep :: fs) ++ (match cod with
            | none => ([] : List Char)
            | some c => ' ' :: c.data) = ent ++ (sep :: (fs ++ (match cod with
            | none => ([] : List Char)
            | some c => ' ' :: c.data))) from by simp]
        rw [hent, List.cons_append]
        exact buscaMonto_cabeza (hdig c0 (by rw [hent]; exact List.mem_cons_self _ _))
      rw [this, montoEn_conFrac hsplit hf.1 hf.2.1 hf.2.2.1 hsplit2, hmon]
      rfl
  · intro h
    have := Nat.pos_of_ne_zero h
    unfold centavosDeDigitos
    omega

/-- C7 (witness): the amended theorem at `"4500 ars"`. -/
theorem C7_testigo :
    parse_monto_moneda (textoMonto "4500".data none (some "ars")) = some (450000, "ARS") := by
  have h := (C7_teorema "4500".data none (some "ars") (by decide) (by decide)
    (fun sep fs hc => by cases hc)
    (fun c hc => by
      injection hc with h2
      rw [← h2]
      exact ⟨'a', 'r', 's', rfl, Or.inl ⟨Or.inl rfl, Or.inl rfl, Or.inl rfl⟩⟩)).1
  rw [h]
  decide

/-! ### Claim C9: the guided Query Executor -/

def gEjemplo (ts : Int) (monto : Nat) (medio : String) (clave : Nat) : Gasto :=
  { fecha_hora_utc := ts, monto := monto, moneda := "ARS", descripcion := none,
    categoria := none, comercio := none, medio_pago := some medio, banco := none,
    marca_tarjeta := none, cuenta_pago := none, texto_original := none,
    whatsapp_origen := some "+111", clave := clave }

def gAgo1 : Gasto := gEjemplo (utcMedianoche ⟨2025, 8, 1⟩ + 43200) 100 "efectivo" 0
def gAgo15 : Gasto := gEjemplo (utcMedianoche ⟨2025, 8, 15⟩ + 43200) 200 "credito" 1
def gSep1 : Gasto := gEjemplo (utcMedianoche ⟨2025, 9, 1⟩ + 43200) 300 "efectivo" 2
def gAgo31 : Gasto := gEjemplo (utcMedianoche ⟨2025, 8, 31⟩ + 82800) 400 "efectivo" 3
def gGalicia : Gasto :=
  { gEjemplo (utcMedianoche ⟨2025, 8, 10⟩ + 3600) 500 "debito" 4 with
    banco := some "Banco Galicia" }

def filtrosAgosto : Datos :=
  { desde := some ⟨2025, 8, 1⟩, hasta := some ⟨2025, 8, 31⟩,
    medio := some "efectivo", banco := none }

def filtrosTodos : Datos := { filtrosAgosto with medio := some "todos" }

def filtrosGalicia : Datos := { filtrosTodos with banco := some "galicia" }

def resumenDatos : QueryRes → Option (Nat × Nat × Bool)
  | .noMatches => none
  | .resumen c _ _ l tr => some (c, l.length, tr)

def gastosMuchos : List Gasto :=
  (List.range 25).map
    (fun (i : Nat) => gEjemplo (utcMedianoche ⟨2025, 8, 2⟩ + (i : Int)) 100 "efectivo" i)

/-- C9: the guided executor's range is inclusive of the `from` local
    midnight and strictly below the local midnight after `to` (a record
    dated on the `to` day itself is included); the method filter applies
    only when it is not `"todos"`; the bank filter is a case-insensitive
    contains; with no match it returns the sentinel, otherwise count,
    total and the currency of the newest row, listing at most 20 rows
    newest-first.  In particular, for records dated 2025-08-01 /
    2025-08-15 / 2025-09-01 with methods efectivo/credito/efectivo, the
    query `desde=2025-08-01, hasta=2025-08-31, medio=efectivo` returns
    exactly the first record (count 1). -/
theorem C9_teorema :
    ejecutar_consulta_guiada "111" filtrosAgosto [gAgo1, gAgo15, gSep1] =
      .resumen 1 100 "ARS" [gAgo1] false ∧
    ejecutar_consulta_guiada "111" filtrosAgosto [gAgo31] =
      .resumen 1 400 "ARS" [gAgo31] false ∧
    ejecutar_consulta_guiada "111" filtrosAgosto [gSep1] = .noMatches ∧
    ejecutar_consulta_guiada "111" filtrosTodos [gAgo1, gAgo15, gSep1] =
      .resumen 2 300 "ARS" [gAgo15, gAgo1] false ∧
    ejecutar_consulta_guiada "111" filtrosGalicia [gAgo1, gGalicia] =
      .resumen 1 500 "ARS" [gGalicia] false ∧
    resumenDatos (ejecutar_consulta_guiada "111" filtrosTodos gastosMuchos) =
      some (25, 20, true) := by decide

/-! ### Claims C1 and C2: deduplication and the envelope requirements -/

def mundoVacio : World := ⟨[], [], [], [], [], [], true⟩

/-- C1 (counterexample): an event whose `message_id` is the empty string
    is processed once (menu prompt sent) and, replayed, is processed
    again — the second delivery is *not* dropped: it sends again and
    performs a session write (`actualizado_en` moves to the new time).
    `visto_o_registrar` returns `False` for an empty id without
    registering it, so deduplication never engages. -/
theorem C1_contraejemplo :
    (incoming ⟨some "", some "549", "hola"⟩ 0 mundoVacio).out = [.menuPrompt] ∧
    (incoming ⟨some "", some "549", "hola"⟩ 10
        (incoming ⟨some "", some "549", "hola"⟩ 0 mundoVacio).world).out = [.menuPrompt] ∧
    get_conv "+549" (incoming ⟨some "", some "549", "hola"⟩ 10
        (incoming ⟨some "", some "549", "hola"⟩ 0 mundoVacio).world).world =
      some ⟨"menu", datosVacios, 10⟩ := by decide

/-- C1 (amended): for every inbound event with a *non-empty*
    `message_id`: if the id is already in the dedup log the delivery is
    dropped before any conversation-state access — the world is
    unchanged and nothing is sent — and otherwise processing registers
    the id, so a genuine second delivery is always dropped. -/
theorem C1_teorema (e : Evento) (ahora : Int) (w : World) (f m : String)
    (hrem : e.remitente = some f) (hmid : e.mid = some m) (hne : m ≠ "") :
    (m ∈ w.processed → incoming e ahora w = ⟨w, [], false⟩) ∧
    m ∈ (incoming e ahora w).world.processed := by
  constructor
  · intro hmem
    obtain ⟨mo, r, c⟩ := e
    simp only at hrem hmid
    subst hrem; subst hmid
    unfold incoming
    try dsimp only
    rw [if_pos ⟨hne, hmem⟩]
    rfl
  · rw [incoming_processed hrem hmid hne]
    split_ifs with h
    · exact h
    · exact List.mem_cons_self _ _

def mundoConM1 : World := ⟨["m1"], [], [], [], [], [], true⟩

/-- C1 (witness): the amended theorem at a registered id `"m1"`. -/
theorem C1_testigo :
    incoming ⟨some "m1", some "549", "hola"⟩ 0 mundoConM1 = ⟨mundoConM1, [], false⟩ ∧
    "m1" ∈ (incoming ⟨some "m1", some "549", "hola"⟩ 0 mundoConM1).world.processed := by
  have h := C1_teorema ⟨some "m1", some "549", "hola"⟩ 0 mundoConM1 "549" "m1" rfl rfl
    (by decide)
  exact ⟨h.1 (by decide), h.2⟩

/-- C2 (counterexample): an inbound event whose `message_id` is empty is
    *not* silently ignored: the bot replies with the menu prompt and
    writes a session.  Only a missing `user_id` causes the silent drop
    (the `msg["from"]` KeyError is swallowed). -/
theorem C2_contraejemplo :
    (incoming ⟨some "", some "777", "hola"⟩ 0 mundoVacio).out ≠ [] ∧
    (incoming ⟨some "", some "777", "hola"⟩ 0 mundoVacio).world.sessions ≠ [] := by decide

/-- C2 (amended): an event lacking `user_id` is silently ignored (no
    transition, no send, no crash); an event whose `message_id` is
    absent or empty merely skips dedup registration (the processed log
    is unchanged) and is otherwise handled normally. -/
theorem C2_teorema :
    (∀ (e : Evento) (ahora : Int) (w : World), e.remitente = none →
      incoming e ahora w = ⟨w, [], false⟩) ∧
    (∀ (e : Evento) (ahora : Int) (w : World) (f : String), e.remitente = some f →
      e.mid.getD "" = "" →
      (incoming e ahora w).world.processed = w.processed) := by
  constructor
  · intro e ahora w h
    obtain ⟨mo, r, c⟩ := e
    simp only at h
    subst h
    rfl
  · intro e ahora w f hrem hm
    exact incoming_processed_vacio hrem hm

/-- C2 (witness): both halves of the amended theorem at concrete
    events. -/
theorem C2_testigo :
    incoming ⟨some "x", none, "hola"⟩ 0 mundoVacio = ⟨mundoVacio, [], false⟩ ∧
    (incoming ⟨none, some "777", "hola"⟩ 0 mundoVacio).world.processed =
      mundoVacio.processed :=
  ⟨C2_teorema.1 _ 0 _ rfl, C2_teorema.2 _ 0 _ "777" rfl rfl⟩

/-! ### Claim C3: the inactivity timeout -/

def sesionVieja : Sesion := ⟨"pide_monto", datosVacios, 0⟩

def mundoViejo : World := ⟨[], [("+549", sesionVieja)], [], [], [], [], true⟩

/-- C3 (counterexample): a message arriving more than 2 minutes after the
    last update of a `pide_monto` session — even the greeting `"hola"` —
    is *not* treated as a fresh entry at the initial menu: the turn sends
    only the timeout notice and deletes the session (no menu prompt, no
    `menu` state written). -/
theorem C3_contraejemplo :
    (incoming ⟨some "m2", some "549", "hola"⟩ 1000 mundoViejo).out = [.timeoutNote] ∧
    get_conv "+549" (incoming ⟨some "m2", some "549", "hola"⟩ 1000 mundoViejo).world =
      none := by decide

/-- C3 (amended): a turn that finds an expired session first discards the
    stored state and data and notifies the user of the timeout; the
    triggering message itself is dropped (never routed through the old
    flow — the prior partial data is never used), and only the *next*
    message starts fresh at the initial menu. -/
theorem C3_teorema (e : Evento) (ahora : Int) (w : World) (f : String) (s : Sesion)
    (hrem : e.remitente = some f)
    (hfresh : ¬(e.mid.getD "" ≠ "" ∧ e.mid.getD "" ∈ w.processed))
    (hs : get_conv ("+" ++ f) w = some s)
    (hestado : s.estado ≠ "")
    (hexp : session_expirada ahora s.actualizado_en) :
    (incoming e ahora w).out = [.timeoutNote] ∧
    get_conv ("+" ++ f) (incoming e ahora w).world = none ∧
    (incoming e ahora w).world.gastos = w.gastos ∧
    (incoming e ahora w).crashed = false := by
  rw [incoming_reduce hrem hfresh]
  try dsimp only
  rw [get_conv_registrar, hs]
  try dsimp only
  rw [if_pos ⟨hestado, hexp⟩]
  refine ⟨rfl, get_conv_clear _ _, ?_, rfl⟩
  show (if e.mid.getD "" = "" then w
    else { w with processed := e.mid.getD "" :: w.processed }).gastos = w.gastos
  split_ifs <;> rfl

/-- C3 (witness): the amended theorem on a session last updated at 0,
    with a message at 500 s. -/
theorem C3_testigo :
    (incoming ⟨some "m3", some "549", "1"⟩ 500 mundoViejo).out = [.timeoutNote] ∧
    get_conv "+549" (incoming ⟨some "m3", some "549", "1"⟩ 500 mundoViejo).world = none := by
  have h := C3_teorema ⟨some "m3", some "549", "1"⟩ 500 mundoViejo "549" sesionVieja rfl
    (by decide) (by decide) (by decide) (by decide)
  exact ⟨h.1, h.2.1⟩

/-! ### Claim C4: writer failure at the terminal commit -/

def datosListos : Datos :=
  { monto := some 1000, moneda := some "ARS", medio_pago := some "efectivo",
    descripcion := some "cafe", fecha_hora_utc := some 100, banco := none }

def mundoEscritorCaido : World :=
  ⟨[], [("+549", ⟨"pide_cuenta", datosListos, 100⟩)], [], [], [], [], false⟩

/-- C4 (counterexample): with the Expense Writer down, answering the
    final `pide_cuenta` question makes the handler crash (HTTP 500): *no*
    user-visible failure message is sent and the session is *not*
    cleared — it is still `pide_cuenta` with the same data. -/
theorem C4_contraejemplo :
    (incoming ⟨some "m4", some "549", "ninguno"⟩ 150 mundoEscritorCaido).crashed = true ∧
    (incoming ⟨some "m4", some "549", "ninguno"⟩ 150 mundoEscritorCaido).out = [] ∧
    get_conv "+549"
        (incoming ⟨some "m4", some "549", "ninguno"⟩ 150 mundoEscritorCaido).world =
      some ⟨"pide_cuenta", datosListos, 100⟩ := by decide

theorem routeState_pide_cuenta (wa f : String) (d : Datos) (t texto : String) (ahora : Int)
    (w : World) :
    routeState wa f "pide_cuenta" d t texto ahora w = hPideCuenta wa d t texto ahora w := rfl

/-- C4 (amended): if the Expense Writer fails at the terminal commit,
    the exception propagates out of the webhook handler uncaught: no
    user-visible message is sent, the session is left untouched (still
    `pide_cuenta`), and nothing is written to `gastos`.  There is no
    automatic retry by the bot; a channel redelivery of the same
    `message_id` is dropped by deduplication. -/
theorem C4_teorema (e : Evento) (ahora : Int) (w : World) (f : String) (d : Datos) (n : Int)
    (hrem : e.remitente = some f)
    (hfresh : ¬(e.mid.getD "" ≠ "" ∧ e.mid.getD "" ∈ w.processed))
    (hs : get_conv ("+" ++ f) w = some ⟨"pide_cuenta", d, n⟩)
    (hnoexp : ¬ session_expirada ahora n)
    (hOk : w.escritorOk = false)
    (ht : pyLower (pyStrip e.cuerpo) = "ninguno") :
    (incoming e ahora w).crashed = true ∧
    (incoming e ahora w).out = [] ∧
    (incoming e ahora w).world.sessions = w.sessions ∧
    (incoming e ahora w).world.gastos = w.gastos := by
  rw [incoming_reduce hrem hfresh]
  try dsimp only
  rw [get_conv_registrar, hs]
  try dsimp only
  rw [if_neg (fun hc => hnoexp hc.2), ht]
  unfold despacha
  rw [if_neg (by decide), if_neg (by decide), if_neg (by decide)]
  try dsimp only
  rw [routeState_pide_cuenta]
  unfold hPideCuenta cometeGasto guardar_gasto
  try dsimp only
  have hOk1 : (if e.mid.getD "" = "" then w
      else { w with processed := e.mid.getD "" :: w.processed }).escritorOk = false := by
    split_ifs <;> exact hOk
  rw [if_neg (by rw [hOk1]; exact fun hc => Bool.false_ne_true hc)]
  refine ⟨rfl, rfl, ?_, ?_⟩
  · show (if e.mid.getD "" = "" then w
      else { w with processed := e.mid.getD "" :: w.processed }).sessions = w.sessions
    split_ifs <;> rfl
  · show (if e.mid.getD "" = "" then w
      else { w with processed := e.mid.getD "" :: w.processed }).gastos = w.gastos
    split_ifs <;> rfl

/-- C4 (witness): the amended theorem on the concrete broken-writer
    world. -/
theorem C4_testigo :
    (incoming ⟨some "m5", some "549", "ninguno"⟩ 150 mundoEscritorCaido).crashed = true ∧
    (incoming ⟨some "m5", some "549", "ninguno"⟩ 150 mundoEscritorCaido).out = [] ∧
    (incoming ⟨some "m5", some "549", "ninguno"⟩ 150 mundoEscritorCaido).world.sessions =
      mundoEscritorCaido.sessions := by
  have h := C4_teorema ⟨some "m5", some "549", "ninguno"⟩ 150 mundoEscritorCaido "549"
    datosListos 100 rfl (by decide) (by decide) (by decide) (by decide) (by decide)
  exact ⟨h.1, h.2.1, h.2.2.1⟩

/-! ### Claim C5: the free-text query shortcut -/

def mundoMenu : World := ⟨[], [("+549", ⟨"menu", datosVacios, 100⟩)], [], [], [], [], true⟩

/-- C5 (counterexample): `"hasta luego"` neither begins with the trigger
    word nor contains *both* date markers (only `hasta`), so by the claim
    the shortcut should not fire — yet the code fires it (the condition
    is a disjunction of the three tests) and immediately answers with a
    free-query result instead of the menu re-prompt. -/
theorem C5_contraejemplo :
    (empiezaCon "pasame " (pyLower (pyStrip "hasta luego")) ||
      (contiene (pyLower (pyStrip "hasta luego")) "desde" &&
        contiene (pyLower (pyStrip "hasta luego")) "hasta")) = false ∧
    (incoming ⟨some "m7", some "549", "hasta luego"⟩ 150 mundoMenu).out =
      [.consultaLibre .noMatches] := by decide

/-- C5 (amended): for a fresh, non-expired, non-cancel turn the shortcut
    fires *exactly* when the lowercased text begins with `"pasame "` or
    contains the `"desde"` marker or contains the `"hasta"` marker
    (either marker alone suffices); when it fires the free query is
    executed immediately — the only outbound message is its result — and
    neither sessions nor expenses change; when it does not fire, no
    free-query answer is ever emitted. -/
theorem C5_teorema (e : Evento) (ahora : Int) (w : World) (f : String)
    (hrem : e.remitente = some f)
    (hfresh : ¬(e.mid.getD "" ≠ "" ∧ e.mid.getD "" ∈ w.processed))
    (hnoto : ∀ s, get_conv ("+" ++ f) w = some s →
      ¬(s.estado ≠ "" ∧ session_expirada ahora s.actualizado_en))
    (hnocancel : pyLower (pyStrip e.cuerpo) ∉ ["cancelar", "salir", "stop"]) :
    (atajoLibre (pyLower (pyStrip e.cuerpo)) = true →
      (incoming e ahora w).out =
        [.consultaLibre (consultar_libre f (pyStrip e.cuerpo) w.gastos)] ∧
      (incoming e ahora w).world.sessions = w.sessions ∧
      (incoming e ahora w).world.gastos = w.gastos) ∧
    (atajoLibre (pyLower (pyStrip e.cuerpo)) = false →
      ∀ q, OutMsg.consultaLibre q ∉ (incoming e ahora w).out) := by
  have hses : (if e.mid.getD "" = "" then w
      else { w with processed := e.mid.getD "" :: w.processed }).sessions = w.sessions := by
    split_ifs <;> rfl
  have hgas : (if e.mid.getD "" = "" then w
      else { w with processed := e.mid.getD "" :: w.processed }).gastos = w.gastos := by
    split_ifs <;> rfl
  rw [incoming_reduce hrem hfresh]
  try dsimp only
  rw [get_conv_registrar]
  constructor
  · intro hat
    rcases hg : get_conv ("+" ++ f) w with _ | s
    · simp only [hg]
      unfold despacha
      rw [if_neg hnocancel, if_pos hat]
      exact ⟨by rw [hgas]; rfl, hses, hgas⟩
    · simp only [hg]
      rw [if_neg (hnoto s hg)]
      unfold despacha
      rw [if_neg hnocancel, if_pos hat]
      exact ⟨by rw [hgas]; rfl, hses, hgas⟩
  · intro hat q
    rcases hg : get_conv ("+" ++ f) w with _ | s
    · simp only [hg]
      exact despacha_noLibre (by simp [hat]) q
    · simp only [hg]
      rw [if_neg (hnoto s hg)]
      exact despacha_noLibre (by simp [hat]) q

/-- C5 (witness): the amended theorem fired by a `"pasame …"` message
    from a user sitting at the menu. -/
theorem C5_testigo :
    (incoming ⟨some "m8", some "549", "pasame los gastos"⟩ 150 mundoMenu).out =
      [.consultaLibre (consultar_libre "549" (pyStrip "pasame los gastos")
        mundoMenu.gastos)] ∧
    (incoming ⟨some "m8", some "549", "pasame los gastos"⟩ 150 mundoMenu).world.sessions =
      mundoMenu.sessions ∧
    (incoming ⟨some "m8", some "549", "pasame los gastos"⟩ 150 mundoMenu).world.gastos =
      mundoMenu.gastos := by
  have h := C5_teorema ⟨some "m8", some "549", "pasame los gastos"⟩ 150 mundoMenu "549" rfl
    (by decide)
    (fun s hs => by
      rw [show get_conv ("+" ++ "549") mundoMenu = some (⟨"menu", datosVacios, 100⟩ : Sesion)
        from by decide] at hs
      injection hs with h2
      rw [← h2]
      decide)
    (by decide)
  exact h.1 (by decide)

/-! ### Claim C10: greetings override every state -/

def mundoMedioFlujo : World :=
  ⟨[], [("+549", ⟨"pide_descripcion", datosListos, 100⟩)], [], [], [], [], true⟩

/-- C10: on a fresh, non-expired turn whose lowercased text is one of the
    greeting keywords, the session is overwritten to the `menu` state
    with empty data — silently discarding any in-progress flow data — and
    the menu prompt is sent, regardless of the stored state, because the
    greeting check precedes the state router. -/
theorem C10_teorema (e : Evento) (ahora : Int) (w : World) (f : String) (s : Sesion)
    (hrem : e.remitente = some f)
    (hfresh : ¬(e.mid.getD "" ≠ "" ∧ e.mid.getD "" ∈ w.processed))
    (hs : get_conv ("+" ++ f) w = some s)
    (hnoexp : ¬(s.estado ≠ "" ∧ session_expirada ahora s.actualizado_en))
    (hsal : pyLower (pyStrip e.cuerpo) ∈ saludos) :
    (incoming e ahora w).out = [.menuPrompt] ∧
    get_conv ("+" ++ f) (incoming e ahora w).world = some ⟨"menu", datosVacios, ahora⟩ := by
  rw [incoming_reduce hrem hfresh]
  try dsimp only
  rw [get_conv_registrar, hs]
  try dsimp only
  rw [if_neg hnoexp]
  simp only [saludos, List.mem_cons, List.not_mem_nil, or_false] at hsal
  rcases hsal with h | h | h | h | h | h <;>
    (rw [h]
     unfold despacha
     rw [if_neg (by decide), if_neg (by decide), if_pos (by decide)]
     exact ⟨rfl, get_conv_set _ _ _ _ _⟩)

/-- C10 (witness): `"hola"` in the middle of a registration flow resets
    the session to the menu. -/
theorem C10_testigo :
    (incoming ⟨some "m6", some "549", "hola"⟩ 150 mundoMedioFlujo).out = [.menuPrompt] ∧
    get_conv "+549" (incoming ⟨some "m6", some "549", "hola"⟩ 150 mundoMedioFlujo).world =
      some ⟨"menu", datosVacios, 150⟩ :=
  C10_teorema ⟨some "m6", some "549", "hola"⟩ 150 mundoMedioFlujo "549"
    ⟨"pide_descripcion", datosListos, 100⟩ rfl (by decide) (by decide) (by decide) (by decide)

/-! ### Claim C6: the commit invariant -/

theorem routeState_pide_monto (wa f : String) (d : Datos) (t texto : String) (ahora : Int)
    (w : World) :
    routeState wa f "pide_monto" d t texto ahora w = hPideMonto wa d texto ahora w := rfl

theorem routeState_pide_medio (wa f : String) (d : Datos) (t texto : String) (ahora : Int)
    (w : World) :
    routeState wa f "pide_medio_pago" d t texto ahora w = hPideMedioPago wa d t ahora w := rfl

/-- C6: in every reachable execution, every record handed to the Expense
    Writer has a parsed positive amount and one of the four enumerated
    payment methods; `pide_monto` never advances on a missing or
    non-positive amount (the turn leaves the world untouched and only
    re-prompts), and `pide_medio_pago` never advances on any other
    method string. -/
theorem C6_teorema :
    (∀ w, Alcanzable w → ∀ g ∈ w.gastos,
      0 < g.monto ∧ ∃ m, g.medio_pago = some m ∧ m ∈ mediosValidos) ∧
    (∀ (wa from_id : String) (d : Datos) (t texto : String) (ahora : Int) (w : World),
      (∀ q mon, parse_monto_moneda texto = some (q, mon) → q = 0) →
      routeState wa from_id "pide_monto" d t texto ahora w = ⟨w, [.montoIlegible], false⟩) ∧
    (∀ (wa from_id : String) (d : Datos) (t texto : String) (ahora : Int) (w : World),
      medio_pago_valido t = none →
      routeState wa from_id "pide_medio_pago" d t texto ahora w =
        ⟨w, [.elegiMedioPago], false⟩) := by
  refine ⟨?_, ?_, ?_⟩
  · intro w hw g hg
    exact (alcanzable_inv hw).2 g hg
  · intro wa from_id d t texto ahora w h
    rw [routeState_pide_monto]
    unfold hPideMonto
    rcases hp : parse_monto_moneda texto with _ | ⟨q, mon⟩
    · rfl
    · try dsimp only
      rw [if_pos (h q mon hp)]
      rfl
  · intro wa from_id d t texto ahora w h
    rw [routeState_pide_medio]
    unfold hPideMedioPago
    rw [h]
    rfl

/-- C6 (witness): the gastos invariant at the initial world, and both
    no-advance facts at the unparseable text `"hola"`. -/
theorem C6_testigo :
    (∀ g ∈ mundoVacio.gastos,
      0 < g.monto ∧ ∃ m, g.medio_pago = some m ∧ m ∈ mediosValidos) ∧
    routeState "+549" "549" "pide_monto" datosVacios "hola" "hola" 0 mundoVacio =
      ⟨mundoVacio, [.montoIlegible], false⟩ ∧
    routeState "+549" "549" "pide_medio_pago" datosVacios "hola" "hola" 0 mundoVacio =
      ⟨mundoVacio, [.elegiMedioPago], false⟩ :=
  ⟨C6_teorema.1 mundoVacio (Alcanzable.inicial true),
   C6_teorema.2.1 _ _ _ _ _ _ _ (fun q mon h => by
     rw [show parse_monto_moneda "hola" = none from by decide] at h
     exact Option.noConfusion h),
   C6_teorema.2.2 _ _ _ _ _ _ _ (by decide)⟩
